import Mathlib

/-!
Verification of the appointment-notification microservice: a shallow
embedding of the status classifier, reconciler, reminder matcher, delivery
dispatcher retry loop, pagination driver and the persisted ledger, with
theorems checking the design document's testable properties.

Python strings are modelled as Lean `String` (lists of characters); the
ASCII-only fragment of `str.upper`/`str.strip`/`str.isdigit` used by the
status and phone-number pipelines coincides with the Lean character
operations used here.  The external collaborators (HTTP source, messaging
provider, wall clock, `strptime`) are modelled as oracles passed in as
parameters.
-/

/-- Containment of one character list inside another, the model of the
Python substring operator `in`. -/
def contemL (n : List Char) : List Char → Bool
  | [] => n.isEmpty
  | c :: t => n.isPrefixOf (c :: t) || contemL n t

/-- Substring test on strings (Python `needle in hay`). -/
def pyIn (needle hay : String) : Bool := contemL needle.data hay.data

/-- Character-list uppercase map (ASCII fragment of Python `str.upper`). -/
def upperL (l : List Char) : List Char := l.map Char.toUpper

/-- String uppercase (ASCII fragment of Python `str.upper`). -/
def pyUpper (s : String) : String := ⟨upperL s.data⟩

/-- Leading/trailing-whitespace removal on character lists, the model of
Python `str.strip`. -/
def stripL (l : List Char) : List Char :=
  ((l.dropWhile Char.isWhitespace).reverse.dropWhile Char.isWhitespace).reverse

/-- Python `str.strip`. -/
def pyStrip (s : String) : String := ⟨stripL s.data⟩

/-- Keeps only the decimal digits of a string: the model of
`"".join([c for c in str(x) if c.isdigit()])`. -/
def apenasDigitos (s : String) : String := ⟨s.data.filter Char.isDigit⟩

/-- Python slice `s[:5]` (which also returns short strings whole, so it
agrees with taking the first five characters in every case). -/
def pegar5 (s : String) : String := ⟨s.data.take 5⟩

/-- Python `a or b` on optional strings: the first operand wins unless it
is falsy (absent or empty). -/
def ouStr (a b : Option String) : Option String :=
  match a with
  | some s => if s = "" then b else some s
  | none => b

/-- Keyword tested against the status text for cancellations
(`main.CANCELAMENTO_KEYWORD`). -/
def CANCELAMENTO_KEYWORD : String := "CANCELADO"

/-- Keyword tested against the status text for confirmations
(`main.CONFIRMADO_KEYWORD`). -/
def CONFIRMADO_KEYWORD : String := "CONFIRMADO"

/-- Hardcoded test phone number (`main.NUMERO_TESTE`). -/
def NUMERO_TESTE : String := "92984532273"

/-- Consultation-type id that selects the standard confirmation template
(`main.ID_TIPO_CONSULTA`). -/
def ID_TIPO_CONSULTA : Int := 113784

/-- Phone-number normalisation for the test-number comparison
(`main.normalizar_numero_para_comparacao`): digits only, with a leading 55
country prefix dropped when the digit string is longer than 11. -/
def normalizar_numero_para_comparacao (numero : String) : String :=
  if numero = "" then ""
  else
    let limpo := (apenasDigitos numero).data
    if (match limpo with
        | '5' :: '5' :: _ => true
        | _ => false) && decide (limpo.length > 11)
    then ⟨limpo.drop 2⟩ else ⟨limpo⟩

/-- One procedure descriptor attached to an appointment (the dict case of
the `procedimentos` list entries). -/
structure Procedimento where
  nome : Option String
  nomeProcedimento : Option String
deriving DecidableEq

/-- One appointment snapshot as returned by the scheduling source, with
the alternative field spellings the code falls back across.  Absent keys
are `none`; present-but-empty strings are `some ""`. -/
structure Agendamento where
  id : Option Nat
  status : Option String
  data : Option String
  dataAgenda : Option String
  horaInicio : Option String
  hora : Option String
  hora_inicio : Option String
  telefoneCelularPaciente : Option String
  telefone : Option String
  telefone_celular_paciente : Option String
  telefonePaciente : Option String
  idTipoConsulta : Option Int
  procedimentos : List Procedimento
deriving DecidableEq

/-- One row of the `processed` ledger table: last recorded date, time and
consultation-type id for a (appointment id, notice type) key. -/
structure RegistroLedger where
  data_agenda : Option String
  hora_agenda : Option String
  id_tipo_consulta : Option Int
deriving DecidableEq

/-- The persisted ledger, as a map from (appointment id, notice type) to
the stored row.  At most one row per key, matching the table's composite
primary key. -/
abbrev Ledger := Nat → String → Option RegistroLedger

/-- The empty ledger. -/
def ledgerVazio : Ledger := fun _ _ => none

/-- Existence check on the ledger for a specific notice type
(`storage.is_processed` with `tipo` given). -/
def is_processed (L : Ledger) (i : Nat) (tipo : String) : Bool :=
  (L i tipo).isSome

/-- Modelled from the spec: the storage revision imported by `main.py`
(whose `mark_processed` accepts an `id_tipo_consulta` argument, per the
call sites in `main.py` and `init_db.py`) is not under `src/`; per §3/§6
of the design, the write is an upsert keyed on (appointment id, notice
type) storing last date, time and consultation-type id. -/
def mark_processed (L : Ledger) (i : Nat) (tipo : String)
    (dataA horaA : Option String) (tipoConsulta : Option Int) : Ledger :=
  fun j t => if j = i ∧ t = tipo then some ⟨dataA, horaA, tipoConsulta⟩ else L j t

/-- Modelled from the spec: the storage revision imported by `main.py`
(whose `get_processed_data` returns a date/time/consultation-type triple,
per the unpacking at its call sites) is not under `src/`; per §3/§6 the
read returns the stored fields of the row, or all-`none` when the key is
absent. -/
def get_processed_data (L : Ledger) (i : Nat) (tipo : String) :
    Option String × Option String × Option Int :=
  match L i tipo with
  | some r => (r.data_agenda, r.hora_agenda, r.id_tipo_consulta)
  | none => (none, none, none)

/-- Modelled from the spec: `clear_processed` is imported by `main.py`
from the storage module but is missing from `src/`; per §3 it deletes the
ledger entry for the given key, reporting whether a row was removed. -/
def clear_processed (L : Ledger) (i : Nat) (tipo : String) : Ledger × Bool :=
  (fun j t => if j = i ∧ t = tipo then none else L j t, (L i tipo).isSome)

/-- Status-text extraction (`main.obter_status_agendamento`): the stripped
status field, or the empty string when the field is absent or falsy. -/
def obter_status_agendamento (ag : Agendamento) : String :=
  match ag.status with
  | some s => if s = "" then "" else pyStrip s
  | none => ""

/-- Notice-intent classification outcomes of the snapshot classifier. -/
inductive Classe
  | cancelamento
  | confirmacao
  | ignorado
deriving DecidableEq

/-- The status classifier over the extracted status text: the uppercase
text is tested for the cancellation keyword first, then the confirmation
keyword (`main.processar_intervalo`, the `cancelamento_detectado` /
`confirmado_detectado` tests). -/
def classificar_status (statusTexto : String) : Classe :=
  let su := pyUpper statusTexto
  if pyIn CANCELAMENTO_KEYWORD su then .cancelamento
  else if pyIn CONFIRMADO_KEYWORD su then .confirmacao
  else .ignorado

/-- Snapshot-level classification: extraction followed by keyword tests. -/
def classificar (ag : Agendamento) : Classe :=
  classificar_status (obter_status_agendamento ag)

/-- Case-insensitive substring containment, the specification-side reading
of the classifier rule. -/
def contemCaseInsensitive (needle hay : String) : Bool :=
  pyIn (pyUpper needle) (pyUpper hay)

-- Basic ledger lemmas.

theorem is_processed_mark_same (L : Ledger) (i : Nat) (t : String) (d h : Option String) (tc : Option Int) :
    is_processed (mark_processed L i t d h tc) i t = true := by
  simp [is_processed, mark_processed]

theorem lookup_mark_other (L : Ledger) (i : Nat) (t : String) (d h : Option String) (tc : Option Int)
    (j : Nat) (u : String) (hne : ¬(j = i ∧ u = t)) :
    mark_processed L i t d h tc j u = L j u := by
  simp [mark_processed, hne]

theorem get_mark_same (L : Ledger) (i : Nat) (t : String) (d h : Option String) (tc : Option Int) :
    get_processed_data (mark_processed L i t d h tc) i t = (d, h, tc) := by
  simp [get_processed_data, mark_processed]

theorem lookup_clear_same (L : Ledger) (i : Nat) (t : String) :
    (clear_processed L i t).1 i t = none := by
  simp [clear_processed]

theorem lookup_clear_other (L : Ledger) (i : Nat) (t : String)
    (j : Nat) (u : String) (hne : ¬(j = i ∧ u = t)) :
    (clear_processed L i t).1 j u = L j u := by
  simp [clear_processed, hne]

/-- Date fallback chain `ag.get("data") or ag.get("dataAgenda")`. -/
def dataAgendaDe (ag : Agendamento) : Option String :=
  ouStr ag.data ag.dataAgenda

/-- Time fallback chain across the three spellings of the start time. -/
def horaAgendaDe (ag : Agendamento) : Option String :=
  ouStr ag.horaInicio (ouStr ag.hora ag.hora_inicio)

/-- Patient-phone extraction (`main.obter_numero_paciente`): first truthy
field of the fallback chain, filtered to digits. -/
def obter_numero_paciente (ag : Agendamento) : String :=
  apenasDigitos
    ((ouStr ag.telefoneCelularPaciente
      (ouStr ag.telefone
        (ouStr ag.telefone_celular_paciente ag.telefonePaciente))).getD "")

/-- Gate shared by every dispatch path: the candidate phone number,
normalised, must equal the normalised test number. -/
def numeroEhTeste (numero : String) : Bool :=
  normalizar_numero_para_comparacao numero ==
    normalizar_numero_para_comparacao NUMERO_TESTE

/-- Message template selected for a dispatch. -/
inductive TemplateKind
  | confirmacao
  | excCons
  | reagendamento
  | cancelamento
deriving DecidableEq

/-- Environment flags the template choice depends on: whether the
non-consultation confirmation template is configured. -/
structure Env where
  excConsConfigurado : Bool
deriving DecidableEq

/-- Template chosen for a confirmation-class resend or first send
(`main.processar_intervalo`, template selection): the rebooking template
when the date/time changed, otherwise the standard confirmation template
when the consultation-type id equals `ID_TIPO_CONSULTA`, otherwise the
non-consultation template with a fallback to the standard one when it is
not configured. -/
def templateConfirmacao (env : Env) (ehReag : Bool) (tipoAtual : Option Int) : TemplateKind :=
  if ehReag then .reagendamento
  else
    match tipoAtual with
    | some t => if t = ID_TIPO_CONSULTA then .confirmacao
        else if env.excConsConfigurado then .excCons else .confirmacao
    | none => if env.excConsConfigurado then .excCons else .confirmacao

/-- One attempted dispatch, as observed by the cycle driver. -/
structure Envio where
  template : TemplateKind
  ehReagendamento : Bool
deriving DecidableEq

/-- Per-record outcome tags of the reconciliation step. -/
inductive Desfecho
  | semId
  | ignorado
  | cancelJaNotificado
  | cancelSemDados
  | cancelNaoTeste
  | cancelNotificado
  | cancelFalha
  | jaProcessado
  | semTelefone
  | naoTeste
  | envioOk (ehReag mudouTipo reativacao : Bool)
  | envioFalha (ehReag mudouTipo reativacao : Bool)
deriving DecidableEq

/-- Result of processing one record: the ledger afterwards, the ledger
keys read (in order), the dispatch attempted (if any) and the outcome. -/
structure Resultado where
  ledger : Ledger
  leituras : List (Nat × String)
  envio : Option Envio
  desfecho : Desfecho

/-- Reschedule test (`main.processar_intervalo` lines around 614-624):
with a stored date and time both truthy, compare the stripped incoming
date against the stored date and the minute-truncated times. -/
def ehReagendamentoDe (dAnt hAnt : Option String) (dataAtualStr horaAtualStr : String) : Bool :=
  match dAnt, hAnt with
  | some da, some ha =>
      if da = "" ∨ ha = "" then false
      else decide (dataAtualStr ≠ da ∨ pegar5 horaAtualStr ≠ pegar5 ha)
  | _, _ => false

/-- Consultation-type-change test: both the stored and the incoming id
must be known, and differ. -/
def mudouTipoDe (tAnt tAtual : Option Int) : Bool :=
  match tAnt, tAtual with
  | some a, some b => decide (a ≠ b)
  | _, _ => false

/-- The date string the record processing settles on: the fallback chain
with the `N/A` placeholder re-resolved to the empty string (the value
both branches pass to the dispatcher and the ledger write). -/
def dataRefDe (ag : Agendamento) : String :=
  if (dataAgendaDe ag).getD "N/A" = "N/A" then (dataAgendaDe ag).getD ""
  else (dataAgendaDe ag).getD "N/A"

/-- The time string the record processing settles on, resolved like
`dataRefDe`. -/
def horaRefDe (ag : Agendamento) : String :=
  if (horaAgendaDe ag).getD "N/A" = "N/A" then (horaAgendaDe ag).getD ""
  else (horaAgendaDe ag).getD "N/A"

/-- The stripped incoming date used in the reschedule comparison
(empty when the date is the `N/A` placeholder). -/
def dataAtualDe (ag : Agendamento) : String :=
  if (dataAgendaDe ag).getD "N/A" ≠ "N/A" then pyStrip ((dataAgendaDe ag).getD "N/A") else ""

/-- The stripped incoming time used in the reschedule comparison. -/
def horaAtualDe (ag : Agendamento) : String :=
  if (horaAgendaDe ag).getD "N/A" ≠ "N/A" then pyStrip ((horaAgendaDe ag).getD "N/A") else ""

/-- What a successful dispatch writes to the ledger: a bare cancellation
entry, or a confirmation upsert (date, time, consultation type) together
with, when a cancellation entry had been recorded, its removal. -/
inductive Gravar
  | cancel (i : Nat)
  | conf (i : Nat) (dataRef horaRef : String) (tipo : Option Int) (limparCancel : Bool)

/-- Applies a write specification to the ledger, in the order the code
performs it (`mark_processed` then, conditionally, `clear_processed`). -/
def aplicarGravar (L : Ledger) : Gravar → Ledger
  | .cancel i => mark_processed L i "cancelamento" none none none
  | .conf i dataRef horaRef tipo limparCancel =>
    let L1 := mark_processed L i "agendamento" (some dataRef) (some horaRef) tipo
    if limparCancel then (clear_processed L1 i "cancelamento").1 else L1

/-- The decision the reconciler reaches for one record before any
dispatch: either skip (with the ledger keys read and the outcome tag), or
dispatch a message and, on success, apply a ledger write. -/
inductive Acao
  | pular (leituras : List (Nat × String)) (desfecho : Desfecho)
  | despachar (leituras : List (Nat × String)) (envio : Envio) (gravar : Gravar)
      (desfechoOk desfechoFalha : Desfecho)

/-- Executes a decision against the dispatch oracle: a skip leaves the
ledger alone; a dispatch applies its write exactly when the oracle
reports success.  This is the only place the ledger is written. -/
def executar (L : Ledger) (a : Acao) (envOk : Bool) : Resultado :=
  match a with
  | .pular r d => ⟨L, r, none, d⟩
  | .despachar r ev g dOk dF =>
    if envOk then ⟨aplicarGravar L g, r, some ev, dOk⟩ else ⟨L, r, some ev, dF⟩

/-- The reconciliation decision for one record of `processar_intervalo`:
classification, cancellation branch with ledger duplicate check, data
check and test-number gate, or confirmation branch with
reschedule/retype/reactivation detection against the stored ledger row
and the same test-number gate. -/
def decidirRecord (env : Env) (L : Ledger) (ag : Agendamento) : Acao :=
  match ag.id with
  | none => .pular [] .semId
  | some i =>
    let su := pyUpper (obter_status_agendamento ag)
    if pyIn CANCELAMENTO_KEYWORD su then
      if is_processed L i "cancelamento" then
        .pular [(i, "cancelamento")] .cancelJaNotificado
      else
        let dataA := dataRefDe ag
        let horaA := horaRefDe ag
        let numero := obter_numero_paciente ag
        if numero = "" ∨ dataA = "" ∨ horaA = "" then
          .pular [(i, "cancelamento")] .cancelSemDados
        else if !numeroEhTeste numero then
          .pular [(i, "cancelamento")] .cancelNaoTeste
        else
          .despachar [(i, "cancelamento")] ⟨.cancelamento, false⟩ (.cancel i)
            .cancelNotificado .cancelFalha
    else if !pyIn CONFIRMADO_KEYWORD su then
      .pular [] .ignorado
    else
      let cancelPrevio := is_processed L i "cancelamento"
      let jaProc := is_processed L i "agendamento"
      let leituras := [(i, "cancelamento"), (i, "agendamento")] ++
        (if jaProc then [(i, "agendamento")] else [])
      let trip := get_processed_data L i "agendamento"
      let ehReag := jaProc && ehReagendamentoDe trip.1 trip.2.1 (dataAtualDe ag) (horaAtualDe ag)
      let mudou := jaProc && mudouTipoDe trip.2.2 ag.idTipoConsulta
      let reativar := jaProc && !ehReag && !mudou && cancelPrevio
      if jaProc && !ehReag && !mudou && !cancelPrevio then
        .pular leituras .jaProcessado
      else
        let dataRef := dataRefDe ag
        let horaRef := horaRefDe ag
        let numero := obter_numero_paciente ag
        if numero = "" then
          .pular leituras .semTelefone
        else if !numeroEhTeste numero then
          .pular leituras .naoTeste
        else
          let tpl := templateConfirmacao env ehReag ag.idTipoConsulta
          .despachar leituras ⟨tpl, ehReag⟩ (.conf i dataRef horaRef ag.idTipoConsulta cancelPrevio)
            (.envioOk ehReag mudou reativar) (.envioFalha ehReag mudou reativar)

/-- Reconciliation and dispatch for one record of `processar_intervalo`:
the decision above executed against the dispatch oracle, with the ledger
written only as the side effect of a successful dispatch. -/
def processRecord (env : Env) (L : Ledger) (ag : Agendamento) (envOk : Bool) : Resultado :=
  executar L (decidirRecord env L ag) envOk

/-- Character-list lowercase map (ASCII fragment of Python `str.lower`). -/
def lowerL (l : List Char) : List Char := l.map Char.toLower

/-- String lowercase (ASCII fragment of Python `str.lower`). -/
def pyLower (s : String) : String := ⟨lowerL s.data⟩

/-- Procedure-name extraction inside the reminder predicates:
`proc.get("nome") or proc.get("nomeProcedimento") or ""`. -/
def nomeProc (p : Procedimento) : String :=
  (ouStr p.nome p.nomeProcedimento).getD ""

/-- Procedure predicate for the laser-hair-removal reminder
(`main.eh_depilacao_laser`). -/
def eh_depilacao_laser (ag : Agendamento) : Bool :=
  ag.procedimentos.any fun p => pyIn "depilação a laser" (pyLower (nomeProc p))

/-- Procedure predicate for the abdominal-ultrasound reminder
(`main.eh_usg_abdomen`). -/
def eh_usg_abdomen (ag : Agendamento) : Bool :=
  ag.procedimentos.any fun p =>
    let nl := pyLower (nomeProc p)
    pyIn "usg" nl && (pyIn "abdomen" nl || pyIn "abdômen" nl)

/-- Procedure predicate for the Duoglide-laser reminder
(`main.eh_duoglide`). -/
def eh_duoglide (ag : Agendamento) : Bool :=
  ag.procedimentos.any fun p => pyIn "duoglide" (pyLower (nomeProc p))

/-- One reminder configuration: variant name, whether its template is
configured in the environment, procedure predicate, target lead time in
hours and tolerance in hours. -/
structure LembreteConfig where
  nome : String
  temTemplate : Bool
  predicate : Agendamento → Bool
  delta_target : Option ℚ
  tolerancia : ℚ

/-- The ordered reminder configurations of `main.processar_lembretes`
(`lembrete_configs`), parameterised by which templates the environment
configures. -/
def lembrete_configs (tDuo tUsg tDep tPad : Bool) : List LembreteConfig :=
  [⟨"lembrete_duoglide", tDuo, eh_duoglide, some 72, 3⟩,
   ⟨"lembrete_usg", tUsg, eh_usg_abdomen, some 24, 2⟩,
   ⟨"lembrete_depilacao", tDep, eh_depilacao_laser, some 24, 2⟩,
   ⟨"lembrete_padrao", tPad, fun _ => true, some 24, 2⟩]

/-- The configuration-selection loop of `processar_lembretes`: skip
configurations with no template, whose predicate rejects the snapshot, or
whose window test fails; stop at the first one that passes. -/
def selecionarConfig (dh : ℚ) (ag : Agendamento) : List LembreteConfig → Option LembreteConfig
  | [] => none
  | cfg :: rest =>
    if !cfg.temTemplate then selecionarConfig dh ag rest
    else if !cfg.predicate ag then selecionarConfig dh ag rest
    else
      match cfg.delta_target with
      | some alvo =>
          if |dh - alvo| > cfg.tolerancia then selecionarConfig dh ag rest else some cfg
      | none => some cfg

/-- Eligibility of one configuration, the predicate the selection loop
tests (used to state the first-match property). -/
def configElegivel (dh : ℚ) (ag : Agendamento) (cfg : LembreteConfig) : Bool :=
  cfg.temTemplate && cfg.predicate ag &&
    (match cfg.delta_target with
     | some alvo => !decide (|dh - alvo| > cfg.tolerancia)
     | none => true)

/-- The datetime string `main._obter_datetime_agendamento` hands to
`strptime`: date, a space, and the minute-truncated time; `none` when
either part is missing or empty. -/
def montarDtStr (ag : Agendamento) : Option String :=
  match dataAgendaDe ag, horaAgendaDe ag with
  | some d, some h => if d = "" ∨ h = "" then none else some (d ++ " " ++ pegar5 h)
  | _, _ => none

/-- Per-record outcome tags of the reminder matcher. -/
inductive DesfechoLembrete
  | semId
  | naoConfirmado
  | semDataHora
  | naoFuturo
  | semConfig
  | jaProcessado
  | semTelefone
  | naoTeste
  | enviado
  | falhaEnvio
deriving DecidableEq

/-- Result of the reminder matcher on one record. -/
structure ResultadoLembrete where
  ledger : Ledger
  leituras : List (Nat × String)
  envio : Option String
  desfecho : DesfechoLembrete

/-- The decision of the reminder matcher for one record: skip, or
dispatch the named variant and on success record the (id, variant) row
with the snapshot date/time/type. -/
inductive AcaoLembrete
  | pular (leituras : List (Nat × String)) (desfecho : DesfechoLembrete)
  | despachar (leituras : List (Nat × String)) (i : Nat) (nome : String)
      (dataA horaA : String) (tipo : Option Int)

/-- Executes a reminder decision against the dispatch oracle; the ledger
is written only on success. -/
def executarLembrete (L : Ledger) (a : AcaoLembrete) (envOk : Bool) : ResultadoLembrete :=
  match a with
  | .pular r d => ⟨L, r, none, d⟩
  | .despachar r i nome dataA horaA tipo =>
    if envOk then
      ⟨mark_processed L i nome (some dataA) (some horaA) tipo, r, some nome, .enviado⟩
    else ⟨L, r, some nome, .falhaEnvio⟩

/-- The decision phase of `main.processar_lembretes` for one record:
restricted to confirmation-classified snapshots, computes the lead time
through the `strptime` oracle (minutes since an arbitrary epoch), skips
non-future appointments, selects the first eligible configuration,
deduplicates per (appointment id, variant name) through the ledger and
gates on the test number. -/
def decidirLembrete (L : Ledger) (ag : Agendamento) (agora : ℚ)
    (strptime : String → Option ℚ) (cfgs : List LembreteConfig) : AcaoLembrete :=
  match ag.id with
  | none => .pular [] .semId
  | some i =>
    let su := pyUpper (obter_status_agendamento ag)
    if !pyIn "CONFIRMADO" su then .pular [] .naoConfirmado
    else
      match (montarDtStr ag).bind strptime with
      | none => .pular [] .semDataHora
      | some dtMin =>
        let deltaHoras := (dtMin - agora) / 60
        if deltaHoras ≤ 0 then .pular [] .naoFuturo
        else
          match selecionarConfig deltaHoras ag cfgs with
          | none => .pular [] .semConfig
          | some cfg =>
            if is_processed L i cfg.nome then .pular [(i, cfg.nome)] .jaProcessado
            else
              let numero := obter_numero_paciente ag
              if numero = "" then .pular [(i, cfg.nome)] .semTelefone
              else if !numeroEhTeste numero then .pular [(i, cfg.nome)] .naoTeste
              else
                .despachar [(i, cfg.nome)] i cfg.nome ((dataAgendaDe ag).getD "")
                  ((horaAgendaDe ag).getD "") ag.idTipoConsulta

/-- The reminder matcher for one record of `main.processar_lembretes`:
the decision executed against the dispatch oracle. -/
def processLembrete (L : Ledger) (ag : Agendamento) (agora : ℚ)
    (strptime : String → Option ℚ) (cfgs : List LembreteConfig) (envOk : Bool) :
    ResultadoLembrete :=
  executarLembrete L (decidirLembrete L ag agora strptime cfgs) envOk

/-- Outcome of one HTTP attempt as seen by the dispatcher: a status code,
a timeout, a connection failure, or another request exception. -/
inductive Resposta
  | status (code : Nat)
  | timeoutExc
  | connErrorExc
  | outraExc
deriving DecidableEq

/-- Status codes treated as success (`resp.status_code in (200, 201, 202)`). -/
def ehSucesso (c : Nat) : Bool := c = 200 || c = 201 || c = 202

/-- Status codes treated as retryable (`RETRYABLE_STATUS_CODES`). -/
def ehRetryable (c : Nat) : Bool := c = 500 || c = 502 || c = 503 || c = 504 || c = 429

/-- The attempt loop of `sender.enviar_mensagem_aspa` (identical in
structure to the generic-provider loop of `sender.enviar_mensagem`):
success returns true at once; a retryable status, timeout or connection
error retries while attempts remain and otherwise returns false; a 400
response, any other status, and any other request exception return false
at once.  The result pairs the boolean with the number of attempts made;
the fuel argument mirrors the bounded `range(1, MAX_RETRIES + 1)` and
equals the remaining iterations. -/
def aspaTentativas (resp : Nat → Resposta) (maxR : Nat) : Nat → Nat → Bool × Nat
  | t, 0 => (false, t - 1)
  | t, fuel + 1 =>
    match resp t with
    | .status c =>
      if ehSucesso c then (true, t)
      else if ehRetryable c then
        if t < maxR then aspaTentativas resp maxR (t + 1) fuel else (false, t)
      else (false, t)
    | .timeoutExc => if t < maxR then aspaTentativas resp maxR (t + 1) fuel else (false, t)
    | .connErrorExc => if t < maxR then aspaTentativas resp maxR (t + 1) fuel else (false, t)
    | .outraExc => (false, t)

/-- The dispatcher entry point: attempts start at 1 with `MAX_RETRIES`
iterations available. -/
def enviar_mensagem_aspa (resp : Nat → Resposta) (maxR : Nat) : Bool × Nat :=
  aspaTentativas resp maxR 1 maxR

/-- One page fetch outcome as seen by the pagination loop: an exception,
a falsy response, or a response carrying an optional total-page count and
whether any appointment rows were found on it. -/
inductive PageResult
  | fetchError
  | vazio
  | ok (totalPaginas : Option Nat) (encontrados : Bool)
deriving DecidableEq

/-- The pagination loop of `processar_intervalo` (and, identically, of
`processar_lembretes`): starting at page 0, stop on a falsy response;
after a normal page stop once the page index reaches the reported
total-page count, or, with no reported count, stop when the page had no
rows; on a fetch/processing exception advance to the next page and abort
once the page index exceeds 100.  Returns the list of page indices
fetched and whether the loop exited (as opposed to running out of fuel). -/
def paginacao (src : Nat → PageResult) : Nat → Nat → List Nat × Bool
  | _, 0 => ([], false)
  | pagina, fuel + 1 =>
    match src pagina with
    | .fetchError =>
      if pagina + 1 > 100 then ([pagina], true)
      else
        let r := paginacao src (pagina + 1) fuel
        (pagina :: r.1, r.2)
    | .vazio => ([pagina], true)
    | .ok tp enc =>
      match tp with
      | some total =>
        if pagina ≥ total then ([pagina], true)
        else
          let r := paginacao src (pagina + 1) fuel
          (pagina :: r.1, r.2)
      | none =>
        if !enc then ([pagina], true)
        else
          let r := paginacao src (pagina + 1) fuel
          (pagina :: r.1, r.2)

/-- The pagination sweep of one cycle, from page 0. -/
def processar_intervalo_paginas (src : Nat → PageResult) (fuel : Nat) : List Nat × Bool :=
  paginacao src 0 fuel

-- String-pipeline lemmas: substring containment is invariant under the
-- strip step of the status extraction, and commutes with uppercasing.

theorem contemL_iff (n h : List Char) : contemL n h = true ↔ n <:+: h := by
  induction h with
  | nil => simp [contemL, List.isEmpty_iff]
  | cons c t ih =>
    simp [contemL, Bool.or_eq_true, ih, List.isPrefixOf_iff_prefix, List.infix_cons_iff]

theorem infix_dropWhile (p : Char → Bool) (n : List Char) (hn : ∀ c ∈ n, p c = false) :
    ∀ l : List Char, n <:+: l → n <:+: l.dropWhile p := by
  intro l
  induction l with
  | nil => intro hh; simpa using hh
  | cons c t ih =>
    intro hh
    rw [List.dropWhile_cons]
    by_cases hp : p c
    · rw [if_pos hp]
      rcases List.infix_cons_iff.mp hh with hpre | hinf
      · match n, hn, hpre with
        | [], _, _ => exact List.nil_infix
        | a :: n2, hn, hpre =>
          obtain ⟨r, hr⟩ := hpre
          rw [List.cons_append] at hr
          have ha : a = c := (List.cons.injEq _ _ _ _ ▸ hr).1
          exfalso
          have hfalse := hn a (by simp)
          rw [ha, hp] at hfalse
          simp at hfalse
      · exact ih hinf
    · rw [if_neg hp]
      exact hh

theorem stripL_contido (l : List Char) : stripL l <:+: l := by
  have h1 : l.dropWhile Char.isWhitespace <:+ l := List.dropWhile_suffix _
  have h2 : (l.dropWhile Char.isWhitespace).reverse.dropWhile Char.isWhitespace <:+
      (l.dropWhile Char.isWhitespace).reverse := List.dropWhile_suffix _
  have h3 : stripL l <+: l.dropWhile Char.isWhitespace := by
    have h4 := List.reverse_prefix.mpr h2
    rw [List.reverse_reverse] at h4
    exact h4
  exact h3.isInfix.trans h1.isInfix

theorem contemL_stripL (n l : List Char) (hn : ∀ c ∈ n, c.isWhitespace = false) :
    contemL n (stripL l) = contemL n l := by
  rw [Bool.eq_iff_iff, contemL_iff, contemL_iff]
  constructor
  · intro hh; exact hh.trans (stripL_contido l)
  · intro hh
    have s1 : n <:+: l.dropWhile Char.isWhitespace := infix_dropWhile _ n hn l hh
    have s2 : n.reverse <:+: (l.dropWhile Char.isWhitespace).reverse :=
      List.reverse_infix.mpr s1
    have s3 : n.reverse <:+: (l.dropWhile Char.isWhitespace).reverse.dropWhile Char.isWhitespace :=
      infix_dropWhile _ n.reverse (by simpa using hn) _ s2
    have s4 := List.reverse_infix.mpr s3
    rw [List.reverse_reverse] at s4
    exact s4

theorem toNat_ofNatAux (n : Nat) (h : n.isValidChar) : (Char.ofNat n).toNat = n := by
  rw [Char.ofNat, dif_pos h]
  simp [Char.ofNatAux, Char.toNat, UInt32.toNat, BitVec.toNat_ofNatLt]

theorem isWhitespace_eq_false_of_toNat (c : Char) (h : 65 ≤ c.toNat) : c.isWhitespace = false := by
  rw [Char.isWhitespace]
  simp only [Bool.or_eq_false_iff, decide_eq_false_iff_not]
  refine ⟨⟨⟨?_, ?_⟩, ?_⟩, ?_⟩ <;>
    · intro heq
      rw [heq] at h
      revert h
      decide

theorem isWhitespace_toUpper (c : Char) : (Char.toUpper c).isWhitespace = c.isWhitespace := by
  rw [Char.toUpper]
  by_cases h : c.toNat ≥ 97 ∧ c.toNat ≤ 122
  · rw [if_pos h]
    have hvalid : (c.toNat - 32).isValidChar := by
      left
      omega
    have h2 : (Char.ofNat (c.toNat - 32)).toNat = c.toNat - 32 := toNat_ofNatAux _ hvalid
    have hub : (Char.ofNat (c.toNat - 32)).isWhitespace = false := by
      apply isWhitespace_eq_false_of_toNat
      omega
    have hcb : c.isWhitespace = false := isWhitespace_eq_false_of_toNat c (by omega)
    rw [hub, hcb]
  · rw [if_neg h]

theorem upperL_stripL (l : List Char) : upperL (stripL l) = stripL (upperL l) := by
  have hdw : ∀ m : List Char,
      (m.map Char.toUpper).dropWhile Char.isWhitespace =
        (m.dropWhile Char.isWhitespace).map Char.toUpper := by
    intro m
    rw [List.dropWhile_map]
    have hf : (Char.isWhitespace ∘ Char.toUpper) = Char.isWhitespace :=
      funext isWhitespace_toUpper
    rw [hf]
  rw [upperL, stripL, stripL, upperL]
  rw [hdw l, ← List.map_reverse, hdw _, List.map_reverse]

theorem pyIn_pyUpper_pyStrip (kw s : String) (hkw : ∀ c ∈ kw.data, c.isWhitespace = false) :
    pyIn kw (pyUpper (pyStrip s)) = pyIn kw (pyUpper s) := by
  show contemL kw.data (upperL (stripL s.data)) = contemL kw.data (upperL s.data)
  rw [upperL_stripL]
  exact contemL_stripL _ _ hkw

theorem classificar_eq_status (ag : Agendamento) (s : String) (hs : ag.status = some s) :
    classificar ag = classificar_status s := by
  rw [classificar, obter_status_agendamento, hs]
  simp only []
  by_cases h0 : s = ""
  · rw [if_pos h0, h0]
  · rw [if_neg h0]
    rw [classificar_status, classificar_status]
    have hc : pyIn CANCELAMENTO_KEYWORD (pyUpper (pyStrip s)) =
        pyIn CANCELAMENTO_KEYWORD (pyUpper s) :=
      pyIn_pyUpper_pyStrip _ s (by decide)
    have hf : pyIn CONFIRMADO_KEYWORD (pyUpper (pyStrip s)) =
        pyIn CONFIRMADO_KEYWORD (pyUpper s) :=
      pyIn_pyUpper_pyStrip _ s (by decide)
    rw [hc, hf]

/-- C8: for every snapshot, status classification is total, and: if the
status text contains the cancellation keyword as a case-insensitive
substring the snapshot is a cancellation-candidate (even when the
confirmation keyword is also present); otherwise, if it contains the
confirmation keyword it is a confirmation-candidate; otherwise it is
ignored. -/
theorem C8_classificador_prioridade (ag : Agendamento) (s : String) (hs : ag.status = some s) :
    (contemCaseInsensitive CANCELAMENTO_KEYWORD s = true →
      classificar ag = Classe.cancelamento) ∧
    (contemCaseInsensitive CANCELAMENTO_KEYWORD s = false →
      contemCaseInsensitive CONFIRMADO_KEYWORD s = true →
      classificar ag = Classe.confirmacao) ∧
    (contemCaseInsensitive CANCELAMENTO_KEYWORD s = false →
      contemCaseInsensitive CONFIRMADO_KEYWORD s = false →
      classificar ag = Classe.ignorado) := by
  rw [classificar_eq_status ag s hs]
  have hKc : pyUpper CANCELAMENTO_KEYWORD = CANCELAMENTO_KEYWORD := by decide
  have hKf : pyUpper CONFIRMADO_KEYWORD = CONFIRMADO_KEYWORD := by decide
  simp only [contemCaseInsensitive, hKc, hKf]
  refine ⟨?_, ?_, ?_⟩
  · intro h1
    simp [classificar_status, h1]
  · intro h1 h2
    simp [classificar_status, h1, h2]
  · intro h1 h2
    simp [classificar_status, h1, h2]

/-- Concrete snapshot whose status contains both keywords. -/
def agAmbosStatus : Agendamento :=
  ⟨some 1, some "RECONFIRMADO APOS CANCELADO", none, none, none, none, none, none, none,
    none, none, none, []⟩

/-- Witness for C8 at a status string containing both keywords: it is
classified as a cancellation-candidate. -/
theorem C8_classificador_prioridade_witness :
    contemCaseInsensitive CANCELAMENTO_KEYWORD "RECONFIRMADO APOS CANCELADO" = true ∧
    classificar agAmbosStatus = Classe.cancelamento := by
  refine ⟨by decide, ?_⟩
  exact (C8_classificador_prioridade agAmbosStatus "RECONFIRMADO APOS CANCELADO" rfl).1 (by decide)

/-- Attempt outcomes the dispatcher treats as transient: a retryable
status code, a timeout, or a connection failure. -/
def ehTransiente (r : Resposta) : Bool :=
  match r with
  | .status c => ehRetryable c
  | .timeoutExc => true
  | .connErrorExc => true
  | .outraExc => false

theorem ehSucesso_of_ehRetryable (c : Nat) (h : ehRetryable c = true) : ehSucesso c = false := by
  rw [ehRetryable] at h
  simp only [Bool.or_eq_true, decide_eq_true_eq] at h
  rcases h with ((((h | h) | h) | h) | h) <;> subst h <;> decide

theorem aspaTentativas_transiente_passo (resp : Nat → Resposta) (maxR t fuel : Nat)
    (hlt : t < maxR) (htr : ehTransiente (resp t) = true) :
    aspaTentativas resp maxR t (fuel + 1) = aspaTentativas resp maxR (t + 1) fuel := by
  rw [aspaTentativas]
  match hr : resp t with
  | .status c =>
    rw [hr] at htr
    rw [ehTransiente] at htr
    simp only [ehSucesso_of_ehRetryable c htr, htr, if_pos hlt]
    simp
  | .timeoutExc => simp only [if_pos hlt]
  | .connErrorExc => simp only [if_pos hlt]
  | .outraExc => rw [hr] at htr; simp [ehTransiente] at htr

theorem aspaTentativas_todas_transientes (resp : Nat → Resposta) (maxR : Nat) :
    ∀ fuel t, t + fuel = maxR + 1 → 1 ≤ t →
      (∀ u, t ≤ u → u ≤ maxR → ehTransiente (resp u) = true) →
      aspaTentativas resp maxR t fuel = (false, maxR) := by
  intro fuel
  induction fuel with
  | zero =>
    intro t ht _ _
    rw [aspaTentativas]
    have : t = maxR + 1 := by omega
    subst this
    simp
  | succ n ih =>
    intro t ht h1 htr
    have hle : t ≤ maxR := by omega
    have htrt : ehTransiente (resp t) = true := htr t le_rfl hle
    by_cases hlt : t < maxR
    · rw [aspaTentativas_transiente_passo resp maxR t n hlt htrt]
      exact ih (t + 1) (by omega) (by omega) (fun u hu1 hu2 => htr u (by omega) hu2)
    · have hteq : t = maxR := by omega
      rw [aspaTentativas]
      match hr : resp t with
      | .status c =>
        rw [hr] at htrt
        rw [ehTransiente] at htrt
        simp only [ehSucesso_of_ehRetryable c htrt, htrt, if_neg hlt]
        simp [hteq]
      | .timeoutExc => simp only [if_neg hlt, hteq]; simp
      | .connErrorExc => simp only [if_neg hlt, hteq]; simp
      | .outraExc => rw [hr] at htrt; simp [ehTransiente] at htrt

/-- C6: the dispatcher returns true immediately on a 2xx response; on a
transient failure (retryable status, timeout or connection error) it
retries, returning false after `MAX_RETRIES` attempts when all attempts
are transient; on a 400 (malformed request) it returns false on the first
attempt with no retry; any other status and any other request exception
return false immediately. -/
theorem C6_dispatcher_retry (resp : Nat → Resposta) (maxR : Nat) (hmax : 1 ≤ maxR) :
    (∀ c, resp 1 = Resposta.status c → ehSucesso c = true →
      enviar_mensagem_aspa resp maxR = (true, 1)) ∧
    ((∀ u, 1 ≤ u → u ≤ maxR → ehTransiente (resp u) = true) →
      enviar_mensagem_aspa resp maxR = (false, maxR)) ∧
    (resp 1 = Resposta.status 400 → enviar_mensagem_aspa resp maxR = (false, 1)) ∧
    (∀ c, resp 1 = Resposta.status c → ehSucesso c = false → ehRetryable c = false →
      enviar_mensagem_aspa resp maxR = (false, 1)) ∧
    (resp 1 = Resposta.outraExc → enviar_mensagem_aspa resp maxR = (false, 1)) ∧
    (∀ t fuel, t < maxR → ehTransiente (resp t) = true →
      aspaTentativas resp maxR t (fuel + 1) = aspaTentativas resp maxR (t + 1) fuel) := by
  obtain ⟨m, rfl⟩ : ∃ m, maxR = m + 1 := ⟨maxR - 1, by omega⟩
  refine ⟨?_, ?_, ?_, ?_, ?_, ?_⟩
  · intro c hr hc
    rw [enviar_mensagem_aspa, aspaTentativas, hr]
    simp only [hc]
    simp
  · intro htr
    exact aspaTentativas_todas_transientes resp (m + 1) (m + 1) 1 (by omega) le_rfl htr
  · intro hr
    rw [enviar_mensagem_aspa, aspaTentativas, hr]
    have h400a : ehSucesso 400 = false := by decide
    have h400b : ehRetryable 400 = false := by decide
    simp only [h400a, h400b]
    simp
  · intro c hr hc hrt
    rw [enviar_mensagem_aspa, aspaTentativas, hr]
    simp only [hc, hrt]
    simp
  · intro hr
    rw [enviar_mensagem_aspa, aspaTentativas, hr]
  · intro t fuel hlt htr
    exact aspaTentativas_transiente_passo resp (m + 1) t fuel hlt htr

/-- Attempt oracle that always reports a 503. -/
def respSempre503 : Nat → Resposta := fun _ => Resposta.status 503

/-- Witness for C6 with MAX_RETRIES = 3 and every attempt answering 503:
the dispatcher returns false after exactly 3 attempts. -/
theorem C6_dispatcher_retry_witness :
    (1 ≤ 3 ∧ enviar_mensagem_aspa respSempre503 3 = (false, 3)) := by
  refine ⟨by decide, ?_⟩
  exact (C6_dispatcher_retry respSempre503 3 (by decide)).2.1
    (fun u _ _ => by rw [respSempre503]; decide)

/-- Source whose every page reports two total pages and carries rows. -/
def srcTotal2 : Nat → PageResult := fun _ => PageResult.ok (some 2) true

/-- Counterexample to C9 as stated: with a source reporting total-pages=2
the loop does not stop after page index 1 — it fetches pages 0, 1 and 2
(the break fires only once the page index has reached the reported count,
after that page has already been fetched). -/
theorem C9_paginacao_counterexample :
    processar_intervalo_paginas srcTotal2 1000 = ([0, 1, 2], true) ∧
    (processar_intervalo_paginas srcTotal2 1000).1 ≠ [0, 1] ∧
    2 ∈ (processar_intervalo_paginas srcTotal2 1000).1 := by
  refine ⟨?_, ?_, ?_⟩ <;> decide

theorem paginacao_total_constante (T : Nat) (src : Nat → PageResult)
    (hsrc : ∀ p, src p = PageResult.ok (some T) true) :
    ∀ fuel p, p ≤ T → T + 1 - p ≤ fuel →
      paginacao src p fuel = (List.range' p (T + 1 - p), true) := by
  intro fuel
  induction fuel with
  | zero => intro p hp hf; omega
  | succ n ih =>
    intro p hp hf
    rw [paginacao, hsrc p]
    simp only []
    by_cases hpt : p ≥ T
    · rw [if_pos hpt]
      have h1 : T + 1 - p = 1 := by omega
      rw [h1]
      simp [List.range']
    · rw [if_neg hpt]
      have hrec := ih (p + 1) (by omega) (by omega)
      rw [hrec]
      have hn : T + 1 - p = (T + 1 - (p + 1)) + 1 := by omega
      rw [hn, List.range']

theorem paginacao_erros_constantes (src : Nat → PageResult)
    (hsrc : ∀ p, src p = PageResult.fetchError) :
    ∀ fuel p, p ≤ 100 → 101 - p ≤ fuel →
      paginacao src p fuel = (List.range' p (101 - p), true) := by
  intro fuel
  induction fuel with
  | zero => intro p hp hf; omega
  | succ n ih =>
    intro p hp hf
    rw [paginacao, hsrc p]
    simp only []
    by_cases hpt : p + 1 > 100
    · rw [if_pos hpt]
      have h1 : 101 - p = 1 := by omega
      rw [h1]
      simp [List.range']
    · rw [if_neg hpt]
      have hrec := ih (p + 1) (by omega) (by omega)
      rw [hrec]
      have hn : 101 - p = (101 - (p + 1)) + 1 := by omega
      rw [hn, List.range']

theorem paginacao_sem_fim (src : Nat → PageResult)
    (hsrc : ∀ p, src p = PageResult.ok none true) :
    ∀ fuel p, (paginacao src p fuel).2 = false := by
  intro fuel
  induction fuel with
  | zero => intro p; rw [paginacao]
  | succ n ih =>
    intro p
    rw [paginacao, hsrc p]
    simp only [Bool.not_true, if_false]
    exact ih (p + 1)

/-- C9 amended: a source reporting total-pages=T stops after fetching
pages 0 through T inclusive (so total-pages=2 stops after page index 2,
not 1); a source reporting no total-pages stops immediately on the first
empty-list page; the 100-page safety cap applies only to pages whose
fetch or processing raises — with every fetch raising, exactly pages
0..100 are attempted — and a healthy source that keeps reporting rows
with no total-page count is never stopped by any cap. -/
theorem C9_paginacao_amended (T : Nat) (src srcEmpty srcErr srcInf : Nat → PageResult)
    (hsrc : ∀ p, src p = PageResult.ok (some T) true)
    (hempty : srcEmpty 0 = PageResult.ok none false)
    (herr : ∀ p, srcErr p = PageResult.fetchError)
    (hinf : ∀ p, srcInf p = PageResult.ok none true) :
    (∀ fuel, T + 1 ≤ fuel →
      processar_intervalo_paginas src fuel = (List.range (T + 1), true)) ∧
    (∀ fuel, 1 ≤ fuel →
      processar_intervalo_paginas srcEmpty fuel = ([0], true)) ∧
    (∀ fuel, 101 ≤ fuel →
      processar_intervalo_paginas srcErr fuel = (List.range 101, true)) ∧
    (∀ fuel, (processar_intervalo_paginas srcInf fuel).2 = false) := by
  refine ⟨?_, ?_, ?_, ?_⟩
  · intro fuel hf
    rw [processar_intervalo_paginas,
      paginacao_total_constante T src hsrc fuel 0 (by omega) (by omega)]
    rw [List.range_eq_range']
    simp
  · intro fuel hf
    obtain ⟨n, rfl⟩ : ∃ n, fuel = n + 1 := ⟨fuel - 1, by omega⟩
    rw [processar_intervalo_paginas, paginacao, hempty]
    simp only []
    simp
  · intro fuel hf
    rw [processar_intervalo_paginas,
      paginacao_erros_constantes srcErr herr fuel 0 (by omega) (by omega)]
    rw [List.range_eq_range']
  · intro fuel
    exact paginacao_sem_fim srcInf hinf fuel 0

theorem decidirRecord_despacho_teste (env : Env) (L : Ledger) (ag : Agendamento)
    (r : List (Nat × String)) (ev : Envio) (g : Gravar) (dOk dF : Desfecho)
    (h : decidirRecord env L ag = Acao.despachar r ev g dOk dF) :
    numeroEhTeste (obter_numero_paciente ag) = true := by
  rcases hid : ag.id with _ | i
  · rw [decidirRecord, hid] at h
    simp at h
  · rw [decidirRecord, hid] at h
    simp only [] at h
    repeat' split at h
    all_goals simp_all

theorem decidirLembrete_despacho_teste (L : Ledger) (ag : Agendamento) (agora : ℚ)
    (strptime : String → Option ℚ) (cfgs : List LembreteConfig)
    (r : List (Nat × String)) (i : Nat) (nome dataA horaA : String) (tipo : Option Int)
    (h : decidirLembrete L ag agora strptime cfgs =
      AcaoLembrete.despachar r i nome dataA horaA tipo) :
    numeroEhTeste (obter_numero_paciente ag) = true := by
  rcases hid : ag.id with _ | j
  · rw [decidirLembrete, hid] at h
    simp at h
  · rw [decidirLembrete, hid] at h
    simp only [] at h
    repeat' split at h
    all_goals simp_all

/-- C2: across the confirmation, cancellation and reminder paths, the
ledger changes only as the side effect of a dispatch that returned
success: when no dispatch is attempted, or the dispatcher reports
failure, the ledger is unchanged for that record. -/
theorem C2_escrita_apenas_apos_sucesso (env : Env) (L : Ledger) (ag : Agendamento) (e : Bool)
    (agora : ℚ) (strptime : String → Option ℚ) (cfgs : List LembreteConfig) :
    ((processRecord env L ag e).envio = none → (processRecord env L ag e).ledger = L) ∧
    (e = false → (processRecord env L ag e).ledger = L) ∧
    ((processLembrete L ag agora strptime cfgs e).envio = none →
      (processLembrete L ag agora strptime cfgs e).ledger = L) ∧
    (e = false → (processLembrete L ag agora strptime cfgs e).ledger = L) := by
  refine ⟨?_, ?_, ?_, ?_⟩
  · intro h
    rw [processRecord] at h ⊢
    rcases ha : decidirRecord env L ag with ⟨r, d⟩ | ⟨r, ev, g, dOk, dF⟩
    · simp [executar]
    · rw [ha] at h
      simp only [executar] at h ⊢
      rcases e with _ | _
      · simp
      · simp at h
  · intro he
    subst he
    rw [processRecord]
    rcases ha : decidirRecord env L ag with ⟨r, d⟩ | ⟨r, ev, g, dOk, dF⟩ <;>
      simp [executar]
  · intro h
    rw [processLembrete] at h ⊢
    rcases ha : decidirLembrete L ag agora strptime cfgs with ⟨r, d⟩ | ⟨r, i, nome, dataA, horaA, tipo⟩
    · simp [executarLembrete]
    · rw [ha] at h
      simp only [executarLembrete] at h ⊢
      rcases e with _ | _
      · simp
      · simp at h
  · intro he
    subst he
    rw [processLembrete]
    rcases ha : decidirLembrete L ag agora strptime cfgs with ⟨r, d⟩ | ⟨r, i, nome, dataA, horaA, tipo⟩ <;>
      simp [executarLembrete]

/-- Environment with the non-consultation template configured. -/
def envPadrao : Env := ⟨true⟩

/-- Concrete complete cancellation snapshot addressed to the test number. -/
def agCancelTeste : Agendamento :=
  ⟨some 7, some "CANCELADO", some "2025-01-07", none, some "14:30", none, none,
    some "92984532273", none, none, none, none, []⟩

/-- Witness for C2: on a complete cancellation record a dispatch is
attempted, and with the dispatcher reporting failure the ledger is left
unchanged. -/
theorem C2_escrita_apenas_apos_sucesso_witness :
    (processRecord envPadrao ledgerVazio agCancelTeste false).ledger = ledgerVazio ∧
    ((processRecord envPadrao ledgerVazio agCancelTeste false).envio).isSome = true := by
  refine ⟨?_, by decide⟩
  exact (C2_escrita_apenas_apos_sucesso envPadrao ledgerVazio agCancelTeste false 0
    (fun _ => none) []).2.1 rfl

/-- C5: for every record in every path, when the patient phone number
normalised by `normalizar_numero_para_comparacao` differs from the
hardcoded test number 92984532273, no message is dispatched for the
record and the ledger is not mutated. -/
theorem C5_gate_numero_teste (env : Env) (L : Ledger) (ag : Agendamento) (e : Bool)
    (agora : ℚ) (strptime : String → Option ℚ) (cfgs : List LembreteConfig)
    (h : normalizar_numero_para_comparacao (obter_numero_paciente ag) ≠ "92984532273") :
    (processRecord env L ag e).envio = none ∧ (processRecord env L ag e).ledger = L ∧
    (processLembrete L ag agora strptime cfgs e).envio = none ∧
    (processLembrete L ag agora strptime cfgs e).ledger = L := by
  have hb : numeroEhTeste (obter_numero_paciente ag) = false := by
    rw [numeroEhTeste]
    have hn : normalizar_numero_para_comparacao NUMERO_TESTE = "92984532273" := by decide
    rw [hn]
    exact beq_eq_false_iff_ne.mpr h
  have h1 : ∀ r ev g dOk dF, decidirRecord env L ag ≠ Acao.despachar r ev g dOk dF := by
    intro r ev g dOk dF hc
    rw [decidirRecord_despacho_teste env L ag r ev g dOk dF hc] at hb
    exact Bool.true_eq_false.mp hb
  have h2 : ∀ r i nome dataA horaA tipo,
      decidirLembrete L ag agora strptime cfgs ≠ AcaoLembrete.despachar r i nome dataA horaA tipo := by
    intro r i nome dataA horaA tipo hc
    rw [decidirLembrete_despacho_teste L ag agora strptime cfgs r i nome dataA horaA tipo hc] at hb
    exact Bool.true_eq_false.mp hb
  refine ⟨?_, ?_, ?_, ?_⟩
  · rw [processRecord]
    rcases ha : decidirRecord env L ag with ⟨r, d⟩ | ⟨r, ev, g, dOk, dF⟩
    · simp [executar]
    · exact absurd ha (h1 r ev g dOk dF)
  · rw [processRecord]
    rcases ha : decidirRecord env L ag with ⟨r, d⟩ | ⟨r, ev, g, dOk, dF⟩
    · simp [executar]
    · exact absurd ha (h1 r ev g dOk dF)
  · rw [processLembrete]
    rcases ha : decidirLembrete L ag agora strptime cfgs with ⟨r, d⟩ | ⟨r, i, nome, dataA, horaA, tipo⟩
    · simp [executarLembrete]
    · exact absurd ha (h2 r i nome dataA horaA tipo)
  · rw [processLembrete]
    rcases ha : decidirLembrete L ag agora strptime cfgs with ⟨r, d⟩ | ⟨r, i, nome, dataA, horaA, tipo⟩
    · simp [executarLembrete]
    · exact absurd ha (h2 r i nome dataA horaA tipo)

/-- Concrete confirmation snapshot addressed to a non-test number. -/
def agOutroNumero : Agendamento :=
  ⟨some 8, some "CONFIRMADO", some "2025-01-07", none, some "14:30", none, none,
    some "11999999999", none, none, none, some 113784, []⟩

/-- Witness for C5: a complete confirmation record with phone 11999999999
is neither dispatched nor recorded. -/
theorem C5_gate_numero_teste_witness :
    normalizar_numero_para_comparacao (obter_numero_paciente agOutroNumero) = "11999999999" ∧
    (processRecord envPadrao ledgerVazio agOutroNumero true).envio = none ∧
    (processRecord envPadrao ledgerVazio agOutroNumero true).ledger = ledgerVazio := by
  refine ⟨by decide, ?_, ?_⟩
  · exact (C5_gate_numero_teste envPadrao ledgerVazio agOutroNumero true 0 (fun _ => none) []
      (by decide)).1
  · exact (C5_gate_numero_teste envPadrao ledgerVazio agOutroNumero true 0 (fun _ => none) []
      (by decide)).2.1

/-- Source reporting no total-page count and an empty first page. -/
def srcVazia : Nat → PageResult := fun _ => PageResult.ok none false

/-- Source whose every fetch raises. -/
def srcErro : Nat → PageResult := fun _ => PageResult.fetchError

/-- Source reporting no total-page count and rows on every page. -/
def srcInfinita : Nat → PageResult := fun _ => PageResult.ok none true

/-- Witness for the amended C9 at total-pages=2: pages 0, 1 and 2 are
fetched and the loop stops. -/
theorem C9_paginacao_amended_witness :
    processar_intervalo_paginas srcTotal2 1000 = (List.range 3, true) :=
  (C9_paginacao_amended 2 srcTotal2 srcVazia srcErro srcInfinita
    (fun _ => rfl) rfl (fun _ => rfl) (fun _ => rfl)).1 1000 (by omega)

/-- Concrete cancellation snapshot with no phone number. -/
def agCancelSemTelefone : Agendamento :=
  ⟨some 9, some "CANCELADO", some "2025-01-07", none, some "14:30", none, none, none, none,
    none, none, none, []⟩

/-- Concrete confirmation snapshot with the test phone but no date. -/
def agConfSemData : Agendamento :=
  ⟨some 10, some "CONFIRMADO", none, none, some "14:30", none, none, some "92984532273", none,
    none, none, some 113784, []⟩

/-- Counterexample to C10 as stated: a cancellation-candidate lacking a
phone number is skipped only after the duplicate check has consulted the
ledger (the reads list is non-empty), and a confirmation-candidate
lacking a date is not skipped at all — it is dispatched. -/
theorem C10_registros_incompletos_counterexample :
    (processRecord envPadrao ledgerVazio agCancelSemTelefone true).desfecho =
      Desfecho.cancelSemDados ∧
    (processRecord envPadrao ledgerVazio agCancelSemTelefone true).leituras =
      [(9, "cancelamento")] ∧
    (processRecord envPadrao ledgerVazio agConfSemData true).envio =
      some ⟨TemplateKind.confirmacao, false⟩ := by
  refine ⟨?_, ?_, ?_⟩ <;> decide

/-- C10 amended: a cancellation-candidate lacking a usable phone, date or
time is skipped without dispatch and without ledger mutation, though the
cancellation duplicate check reads the ledger first; a record with no
usable phone digits is skipped without dispatch or mutation on the
confirmation path as well; but a confirmation-candidate carrying the test
phone and lacking only its date is not skipped — a message is
dispatched. -/
theorem C10_registros_incompletos (env : Env) (L : Ledger) (ag : Agendamento) (e : Bool)
    (i : Nat) (hid : ag.id = some i) :
    ((pyIn CANCELAMENTO_KEYWORD (pyUpper (obter_status_agendamento ag)) = true) →
      (obter_numero_paciente ag = "" ∨ dataAgendaDe ag = none ∨ horaAgendaDe ag = none) →
      (processRecord env L ag e).envio = none ∧ (processRecord env L ag e).ledger = L ∧
      (processRecord env L ag e).leituras = [(i, "cancelamento")]) ∧
    ((obter_numero_paciente ag = "") →
      (processRecord env L ag e).envio = none ∧ (processRecord env L ag e).ledger = L) ∧
    ((pyIn CANCELAMENTO_KEYWORD (pyUpper (obter_status_agendamento ag)) = false) →
      (pyIn CONFIRMADO_KEYWORD (pyUpper (obter_status_agendamento ag)) = true) →
      (numeroEhTeste (obter_numero_paciente ag) = true) →
      (dataAgendaDe ag = none) →
      (L i "agendamento" = none) →
      ((processRecord env L ag e).envio).isSome = true) := by
  refine ⟨?_, ?_, ?_⟩
  · intro hcancel hfalta
    rw [processRecord, decidirRecord, hid]
    simp only [hcancel, if_true]
    by_cases hp : is_processed L i "cancelamento"
    · simp only [hp, if_true]
      simp [executar]
    · simp only [hp, if_false]
      have hskip : (obter_numero_paciente ag = "" ∨ dataRefDe ag = "" ∨ horaRefDe ag = "") := by
        rcases hfalta with h | h | h
        · exact Or.inl h
        · right; left; rw [dataRefDe, h]; simp
        · right; right; rw [horaRefDe, h]; simp
      simp only [hskip, if_true]
      simp [executar]
  · intro hfone
    have hb : numeroEhTeste (obter_numero_paciente ag) = false := by
      rw [hfone]
      decide
    have h1 : ∀ r ev g dOk dF, decidirRecord env L ag ≠ Acao.despachar r ev g dOk dF := by
      intro r ev g dOk dF hc
      rw [decidirRecord_despacho_teste env L ag r ev g dOk dF hc] at hb
      exact Bool.true_eq_false.mp hb
    rw [processRecord]
    rcases ha : decidirRecord env L ag with ⟨r, d⟩ | ⟨r, ev, g, dOk, dF⟩
    · simp [executar]
    · exact absurd ha (h1 r ev g dOk dF)
  · intro hcancel hconf hfone hdata hnp
    have hja : is_processed L i "agendamento" = false := by
      rw [is_processed, hnp]
      rfl
    have hnum : obter_numero_paciente ag ≠ "" := by
      intro hq
      rw [hq] at hfone
      exact absurd hfone (by decide)
    rw [processRecord, decidirRecord, hid]
    simp only [hcancel, hconf, hja, hfone, hnum, if_false, Bool.false_and, Bool.and_false,
      Bool.not_true, Bool.false_eq_true, Bool.not_false]
    rcases e with _ | _ <;> simp [executar]

/-- Witness for the amended C10: the phone-less cancellation record is
skipped with the ledger unchanged and exactly one ledger read. -/
theorem C10_registros_incompletos_witness :
    (processRecord envPadrao ledgerVazio agCancelSemTelefone true).envio = none ∧
    (processRecord envPadrao ledgerVazio agCancelSemTelefone true).ledger = ledgerVazio ∧
    (processRecord envPadrao ledgerVazio agCancelSemTelefone true).leituras =
      [(9, "cancelamento")] :=
  (C10_registros_incompletos envPadrao ledgerVazio agCancelSemTelefone true 9 rfl).1
    (by decide) (Or.inl (by decide))

/-- C4: for a confirmation-candidate whose stored ledger entry matches on
date and minute-truncated time but whose stored consultation-type id and
incoming consultation-type id are both known and differ, the decision is
retype (rescheduled=false, type-changed=true, reactivation=false): a
confirmation is dispatched with the template chosen for the new type, and
the stored type is read back from the ledger entry (third ledger read)
for the comparison. -/
theorem C4_retype (env : Env) (L : Ledger) (ag : Agendamento) (e : Bool) (i : Nat)
    (d h dAnt hAnt : String) (tOld tNew : Int)
    (hid : ag.id = some i)
    (hcancel : pyIn CANCELAMENTO_KEYWORD (pyUpper (obter_status_agendamento ag)) = false)
    (hconf : pyIn CONFIRMADO_KEYWORD (pyUpper (obter_status_agendamento ag)) = true)
    (hentry : L i "agendamento" = some ⟨some dAnt, some hAnt, some tOld⟩)
    (hdAnt : dAnt ≠ "") (hhAnt : hAnt ≠ "")
    (hd : dataAgendaDe ag = some d) (hdna : d ≠ "N/A") (hdm : pyStrip d = dAnt)
    (hh : horaAgendaDe ag = some h) (hhna : h ≠ "N/A")
    (hhm : pegar5 (pyStrip h) = pegar5 hAnt)
    (htipo : ag.idTipoConsulta = some tNew) (hne : tNew ≠ tOld)
    (hfone : numeroEhTeste (obter_numero_paciente ag) = true) :
    (processRecord env L ag e).envio =
      some ⟨templateConfirmacao env false (some tNew), false⟩ ∧
    (processRecord env L ag e).leituras =
      [(i, "cancelamento"), (i, "agendamento"), (i, "agendamento")] ∧
    (processRecord env L ag e).desfecho =
      (if e then Desfecho.envioOk false true false else Desfecho.envioFalha false true false) ∧
    templateConfirmacao env false (some tNew) =
      (if tNew = ID_TIPO_CONSULTA then TemplateKind.confirmacao
       else if env.excConsConfigurado then TemplateKind.excCons
       else TemplateKind.confirmacao) := by
  have hja : is_processed L i "agendamento" = true := by
    rw [is_processed, hentry]
    rfl
  have hget : get_processed_data L i "agendamento" = (some dAnt, some hAnt, some tOld) := by
    rw [get_processed_data, hentry]
  have hnum : obter_numero_paciente ag ≠ "" := by
    intro hq
    rw [hq] at hfone
    exact absurd hfone (by decide)
  have hdata0 : (dataAgendaDe ag).getD "N/A" = d := by rw [hd]; rfl
  have hhora0 : (horaAgendaDe ag).getD "N/A" = h := by rw [hh]; rfl
  have hdatual : dataAtualDe ag = pyStrip d := by
    rw [dataAtualDe, hdata0, if_pos hdna]
  have hhatual : horaAtualDe ag = pyStrip h := by
    rw [horaAtualDe, hhora0, if_pos hhna]
  have hreag : ehReagendamentoDe (some dAnt) (some hAnt)
      (dataAtualDe ag) (horaAtualDe ag) = false := by
    rw [hdatual, hhatual, ehReagendamentoDe]
    rw [if_neg (by simp [hdAnt, hhAnt])]
    simp [hdm, hhm]
  have hmud : mudouTipoDe (some tOld) (some tNew) = true := by
    rw [mudouTipoDe]
    simp [Ne.symm hne]
  rw [processRecord, decidirRecord, hid]
  simp only [hcancel, hconf, hja, hget, hdata0, hhora0, hreag, hmud, Bool.not_true,
    Bool.false_eq_true, if_false, Bool.and_false, Bool.false_and, Bool.true_and,
    Bool.and_true, Bool.not_false, htipo]
  rw [if_neg hnum]
  rw [if_neg (by rw [hfone]; decide)]
  rcases e with _ | _ <;> simp [executar, templateConfirmacao]

/-- Ledger holding one confirmation entry for id 11, as written after a
dispatch of a type-113784 confirmation at 2025-01-07 14:30. -/
def ledgerRetype : Ledger := fun j t =>
  if j = 11 ∧ t = "agendamento" then
    some ⟨some "2025-01-07", some "14:30:00", some 113784⟩
  else none

/-- Concrete confirmation snapshot for id 11 at the same date/time but
with a different consultation-type id. -/
def agRetype : Agendamento :=
  ⟨some 11, some "CONFIRMADO", some "2025-01-07", none, some "14:30", none, none,
    some "92984532273", none, none, none, some 200000, []⟩

/-- Witness for C4: same date/time, stored type 113784, incoming type
200000 — a confirmation is re-dispatched with the non-consultation
template and the retype outcome flags. -/
theorem C4_retype_witness :
    (processRecord envPadrao ledgerRetype agRetype true).envio =
      some ⟨TemplateKind.excCons, false⟩ ∧
    (processRecord envPadrao ledgerRetype agRetype true).desfecho =
      Desfecho.envioOk false true false := by
  have hc := C4_retype envPadrao ledgerRetype agRetype true 11 "2025-01-07" "14:30"
    "2025-01-07" "14:30:00" 113784 200000 rfl (by decide) (by decide) rfl
    (by decide) (by decide) rfl (by decide) (by decide) rfl (by decide)
    (by decide) rfl (by decide) (by decide)
  refine ⟨?_, ?_⟩
  · rw [hc.1]
    have ht : templateConfirmacao envPadrao false (some 200000) = TemplateKind.excCons := by
      decide
    rw [ht]
  · rw [hc.2.2.1]
    simp

theorem aplicar_conf_ag (L : Ledger) (i : Nat) (dR hR : String) (tp : Option Int) (cp : Bool) :
    aplicarGravar L (Gravar.conf i dR hR tp cp) i "agendamento" =
      some ⟨some dR, some hR, tp⟩ := by
  rw [aplicarGravar]
  have hne : ¬(i = i ∧ ("agendamento" : String) = "cancelamento") := by
    rintro ⟨_, hq⟩
    exact absurd hq (by decide)
  rcases cp with _ | _
  · simp [mark_processed]
  · simp only [if_true]
    rw [lookup_clear_other _ _ _ _ _ hne]
    simp [mark_processed]

theorem aplicar_conf_cancel (L : Ledger) (i : Nat) (dR hR : String) (tp : Option Int) :
    aplicarGravar L (Gravar.conf i dR hR tp (is_processed L i "cancelamento")) i "cancelamento" =
      none := by
  rw [aplicarGravar]
  have hne : ¬(i = i ∧ ("cancelamento" : String) = "agendamento") := by
    rintro ⟨_, hq⟩
    exact absurd hq (by decide)
  by_cases hcp : is_processed L i "cancelamento"
  · rw [hcp]
    simp only [if_true]
    exact lookup_clear_same _ _ _
  · simp only [Bool.not_eq_true] at hcp
    rw [hcp]
    simp only [Bool.false_eq_true, if_false]
    rw [lookup_mark_other _ _ _ _ _ _ _ _ hne]
    rw [is_processed] at hcp
    rcases hl : L i "cancelamento" with _ | x
    · rfl
    · rw [hl] at hcp
      simp at hcp

theorem ehReag_mesmos (a b : String) :
    ehReagendamentoDe (some a) (some b) a b = false := by
  rw [ehReagendamentoDe]
  by_cases h : a = "" ∨ b = ""
  · rw [if_pos h]
  · rw [if_neg h]
    simp

theorem dataAtual_eq_ref (ag : Agendamento)
    (hwfd : ∀ s, dataAgendaDe ag = some s → pyStrip s = s ∧ s ≠ "N/A") :
    dataAtualDe ag = dataRefDe ag := by
  rcases hd : dataAgendaDe ag with _ | sd
  · rw [dataAtualDe, dataRefDe, hd]
    simp
  · obtain ⟨h1, h2⟩ := hwfd sd hd
    rw [dataAtualDe, dataRefDe, hd]
    simp only [Option.getD_some]
    rw [if_pos h2, if_neg h2, h1]

theorem horaAtual_eq_ref (ag : Agendamento)
    (hwfh : ∀ s, horaAgendaDe ag = some s → pyStrip s = s ∧ s ≠ "N/A") :
    horaAtualDe ag = horaRefDe ag := by
  rcases hh : horaAgendaDe ag with _ | sh
  · rw [horaAtualDe, horaRefDe, hh]
    simp
  · obtain ⟨h1, h2⟩ := hwfh sh hh
    rw [horaAtualDe, horaRefDe, hh]
    simp only [Option.getD_some]
    rw [if_pos h2, if_neg h2, h1]

theorem mudou_mesmo (t : Option Int) : mudouTipoDe t t = false := by
  rcases t with _ | x <;> simp [mudouTipoDe]

theorem replay_cancel_duplicado (env : Env) (L2 : Ledger) (ag : Agendamento) (i : Nat) (e : Bool)
    (hid : ag.id = some i)
    (hcan : pyIn CANCELAMENTO_KEYWORD (pyUpper (obter_status_agendamento ag)) = true)
    (hproc : is_processed L2 i "cancelamento" = true) :
    (processRecord env L2 ag e).ledger = L2 ∧ (processRecord env L2 ag e).envio = none ∧
    (processRecord env L2 ag e).desfecho = Desfecho.cancelJaNotificado := by
  rw [processRecord, decidirRecord, hid]
  simp only [hcan, if_true, hproc]
  simp [executar]

theorem replay_conf_duplicado (env : Env) (L2 : Ledger) (ag : Agendamento) (i : Nat) (e : Bool)
    (hid : ag.id = some i)
    (hcan : pyIn CANCELAMENTO_KEYWORD (pyUpper (obter_status_agendamento ag)) = false)
    (hconf : pyIn CONFIRMADO_KEYWORD (pyUpper (obter_status_agendamento ag)) = true)
    (hwfd : ∀ s, dataAgendaDe ag = some s → pyStrip s = s ∧ s ≠ "N/A")
    (hwfh : ∀ s, horaAgendaDe ag = some s → pyStrip s = s ∧ s ≠ "N/A")
    (hag : L2 i "agendamento" = some ⟨some (dataRefDe ag), some (horaRefDe ag), ag.idTipoConsulta⟩)
    (hnc : L2 i "cancelamento" = none) :
    (processRecord env L2 ag e).ledger = L2 ∧ (processRecord env L2 ag e).envio = none ∧
    (processRecord env L2 ag e).desfecho = Desfecho.jaProcessado := by
  have hja : is_processed L2 i "agendamento" = true := by
    rw [is_processed, hag]
    rfl
  have hcp : is_processed L2 i "cancelamento" = false := by
    rw [is_processed, hnc]
    rfl
  have hget : get_processed_data L2 i "agendamento" =
      (some (dataRefDe ag), some (horaRefDe ag), ag.idTipoConsulta) := by
    rw [get_processed_data, hag]
  have hr : ehReagendamentoDe (some (dataRefDe ag)) (some (horaRefDe ag))
      (dataAtualDe ag) (horaAtualDe ag) = false := by
    rw [dataAtual_eq_ref ag hwfd, horaAtual_eq_ref ag hwfh]
    exact ehReag_mesmos _ _
  have hm : mudouTipoDe ag.idTipoConsulta ag.idTipoConsulta = false := mudou_mesmo _
  rw [processRecord, decidirRecord, hid]
  simp only [hcan, hconf, hja, hcp, hget, hr, hm, Bool.false_eq_true, if_false,
    Bool.not_false, Bool.not_true, if_true, Bool.and_true, Bool.true_and, Bool.and_false,
    Bool.and_self]
  simp [executar]

theorem cancel_inv (env : Env) (L : Ledger) (ag : Agendamento) (i : Nat)
    (hid : ag.id = some i)
    (hcan : pyIn CANCELAMENTO_KEYWORD (pyUpper (obter_status_agendamento ag)) = true)
    (hdisp : ((processRecord env L ag true).envio).isSome = true) :
    (processRecord env L ag true).ledger = mark_processed L i "cancelamento" none none none := by
  rw [processRecord, decidirRecord, hid] at hdisp ⊢
  simp only [hcan, if_true] at hdisp ⊢
  by_cases hpc : is_processed L i "cancelamento"
  · simp only [hpc, if_true] at hdisp
    simp [executar] at hdisp
  · simp only [Bool.not_eq_true] at hpc
    simp only [hpc, Bool.false_eq_true, if_false] at hdisp ⊢
    by_cases hsk : (obter_numero_paciente ag = "" ∨ dataRefDe ag = "" ∨ horaRefDe ag = "")
    · simp only [hsk, if_true] at hdisp
      simp [executar] at hdisp
    · simp only [hsk, if_false] at hdisp ⊢
      by_cases ht : numeroEhTeste (obter_numero_paciente ag)
      · simp only [ht, Bool.not_true, Bool.false_eq_true, if_false] at hdisp ⊢
        simp [executar, aplicarGravar]
      · simp only [Bool.not_eq_true] at ht
        simp only [ht, Bool.not_false, if_true] at hdisp
        simp [executar] at hdisp

theorem conf_inv (env : Env) (L : Ledger) (ag : Agendamento) (i : Nat)
    (hid : ag.id = some i)
    (hcan : pyIn CANCELAMENTO_KEYWORD (pyUpper (obter_status_agendamento ag)) = false)
    (hdisp : ((processRecord env L ag true).envio).isSome = true) :
    pyIn CONFIRMADO_KEYWORD (pyUpper (obter_status_agendamento ag)) = true ∧
    (processRecord env L ag true).ledger =
      aplicarGravar L (Gravar.conf i (dataRefDe ag) (horaRefDe ag) ag.idTipoConsulta
        (is_processed L i "cancelamento")) ∧
    obter_numero_paciente ag ≠ "" ∧
    numeroEhTeste (obter_numero_paciente ag) = true := by
  rw [processRecord, decidirRecord, hid] at hdisp ⊢
  simp only [hcan, Bool.false_eq_true, if_false] at hdisp ⊢
  by_cases hcf : pyIn CONFIRMADO_KEYWORD (pyUpper (obter_status_agendamento ag))
  · refine ⟨hcf, ?_⟩
    simp only [hcf, Bool.not_true, Bool.false_eq_true, if_false] at hdisp ⊢
    by_cases hc0 : (is_processed L i "agendamento" &&
        !(is_processed L i "agendamento" &&
          ehReagendamentoDe (get_processed_data L i "agendamento").1
            (get_processed_data L i "agendamento").2.1 (dataAtualDe ag) (horaAtualDe ag)) &&
        !(is_processed L i "agendamento" &&
          mudouTipoDe (get_processed_data L i "agendamento").2.2 ag.idTipoConsulta) &&
        !is_processed L i "cancelamento") = true
    · simp only [hc0, if_true] at hdisp
      simp [executar] at hdisp
    · simp only [Bool.not_eq_true] at hc0
      simp only [hc0, Bool.false_eq_true, if_false] at hdisp ⊢
      by_cases hnum : obter_numero_paciente ag = ""
      · simp only [hnum, if_true] at hdisp
        simp [executar] at hdisp
      · simp only [hnum, if_false] at hdisp ⊢
        by_cases ht : numeroEhTeste (obter_numero_paciente ag)
        · simp only [ht, Bool.not_true, Bool.false_eq_true, if_false] at hdisp ⊢
          exact ⟨by simp [executar], hnum, trivial⟩
        · simp only [Bool.not_eq_true] at ht
          simp only [ht, Bool.not_false, if_true] at hdisp
          simp [executar] at hdisp
  · simp only [Bool.not_eq_true] at hcf
    simp only [hcf, Bool.not_false, if_true] at hdisp
    simp [executar] at hdisp

/-- C1: a snapshot (of either notice class) whose processing dispatched
successfully replays as duplicate on the resulting ledger: every
subsequent run of the unchanged snapshot reads the ledger, dispatches
nothing, leaves the ledger unchanged, and this holds for any number of
repeats; in particular the ledger write after a successful confirmation
dispatch lands, so the next cycle finds the id already processed.  The
well-formedness hypotheses say the snapshot's date and time strings carry
no surrounding whitespace and are not the literal placeholder string. -/
theorem C1_idempotencia (env : Env) (L L2 : Ledger) (ag : Agendamento) (i : Nat)
    (hid : ag.id = some i)
    (hwfd : ∀ s, dataAgendaDe ag = some s → pyStrip s = s ∧ s ≠ "N/A")
    (hwfh : ∀ s, horaAgendaDe ag = some s → pyStrip s = s ∧ s ≠ "N/A")
    (hdisp : ((processRecord env L ag true).envio).isSome = true)
    (hL2 : (processRecord env L ag true).ledger = L2) :
    (∀ e, (processRecord env L2 ag e).ledger = L2 ∧
      (processRecord env L2 ag e).envio = none ∧
      ((processRecord env L2 ag e).desfecho = Desfecho.cancelJaNotificado ∨
        (processRecord env L2 ag e).desfecho = Desfecho.jaProcessado)) ∧
    (∀ e n, (fun M => (processRecord env M ag e).ledger)^[n] L2 = L2) ∧
    (pyIn CANCELAMENTO_KEYWORD (pyUpper (obter_status_agendamento ag)) = true →
      is_processed L2 i "cancelamento" = true) ∧
    (pyIn CANCELAMENTO_KEYWORD (pyUpper (obter_status_agendamento ag)) = false →
      is_processed L2 i "agendamento" = true) := by
  by_cases hcan : pyIn CANCELAMENTO_KEYWORD (pyUpper (obter_status_agendamento ag)) = true
  · have hinv := cancel_inv env L ag i hid hcan hdisp
    have hL2eq : L2 = mark_processed L i "cancelamento" none none none := by
      rw [← hL2, hinv]
    have hproc2 : is_processed L2 i "cancelamento" = true := by
      rw [hL2eq]
      exact is_processed_mark_same L i "cancelamento" none none none
    have hrep := fun e => replay_cancel_duplicado env L2 ag i e hid hcan hproc2
    refine ⟨fun e => ⟨(hrep e).1, (hrep e).2.1, Or.inl (hrep e).2.2⟩, ?_, fun _ => hproc2, ?_⟩
    · intro e n
      exact Function.iterate_fixed (hrep e).1 n
    · intro hq
      rw [hq] at hcan
      exact absurd hcan (by decide)
  · simp only [Bool.not_eq_true] at hcan
    obtain ⟨hconf, hinv, hnum1, ht1⟩ := conf_inv env L ag i hid hcan hdisp
    have hL2eq : L2 = aplicarGravar L (Gravar.conf i (dataRefDe ag) (horaRefDe ag)
        ag.idTipoConsulta (is_processed L i "cancelamento")) := by
      rw [← hL2, hinv]
    have hag : L2 i "agendamento" =
        some ⟨some (dataRefDe ag), some (horaRefDe ag), ag.idTipoConsulta⟩ := by
      rw [hL2eq]
      exact aplicar_conf_ag L i _ _ _ _
    have hnc : L2 i "cancelamento" = none := by
      rw [hL2eq]
      exact aplicar_conf_cancel L i _ _ _
    have hrep := fun e => replay_conf_duplicado env L2 ag i e hid hcan hconf hwfd hwfh hag hnc
    refine ⟨fun e => ⟨(hrep e).1, (hrep e).2.1, Or.inr (hrep e).2.2⟩, ?_, ?_, ?_⟩
    · intro e n
      exact Function.iterate_fixed (hrep e).1 n
    · intro hq
      rw [hq] at hcan
      exact absurd hcan (by decide)
    · intro _
      rw [is_processed, hag]
      rfl

/-- Concrete complete confirmation snapshot addressed to the test number. -/
def agConfTeste : Agendamento :=
  ⟨some 12, some "CONFIRMADO", some "2025-01-07", none, some "14:30", none, none,
    some "92984532273", none, none, none, some 113784, []⟩

/-- Witness for C1: after the first successful dispatch of the concrete
confirmation snapshot, replaying it dispatches nothing and leaves the
ledger fixed. -/
theorem C1_idempotencia_witness :
    (processRecord envPadrao ((processRecord envPadrao ledgerVazio agConfTeste true).ledger)
      agConfTeste true).envio = none ∧
    (processRecord envPadrao ((processRecord envPadrao ledgerVazio agConfTeste true).ledger)
      agConfTeste true).ledger =
      (processRecord envPadrao ledgerVazio agConfTeste true).ledger := by
  have hwfd : ∀ s, dataAgendaDe agConfTeste = some s → pyStrip s = s ∧ s ≠ "N/A" := by
    intro s hs
    have hd : dataAgendaDe agConfTeste = some "2025-01-07" := by decide
    rw [hd, Option.some.injEq] at hs
    subst hs
    exact ⟨by decide, by decide⟩
  have hwfh : ∀ s, horaAgendaDe agConfTeste = some s → pyStrip s = s ∧ s ≠ "N/A" := by
    intro s hs
    have hd : horaAgendaDe agConfTeste = some "14:30" := by decide
    rw [hd, Option.some.injEq] at hs
    subst hs
    exact ⟨by decide, by decide⟩
  have hc := C1_idempotencia envPadrao ledgerVazio
    ((processRecord envPadrao ledgerVazio agConfTeste true).ledger) agConfTeste 12 rfl
    hwfd hwfh (by decide) rfl
  exact ⟨(hc.1 true).2.1, (hc.1 true).1⟩

theorem cancel_fwd (env : Env) (L : Ledger) (ag : Agendamento) (i : Nat) (e : Bool)
    (hid : ag.id = some i)
    (hcan : pyIn CANCELAMENTO_KEYWORD (pyUpper (obter_status_agendamento ag)) = true)
    (hpc : is_processed L i "cancelamento" = false)
    (hnum : obter_numero_paciente ag ≠ "")
    (hdR : dataRefDe ag ≠ "") (hhR : horaRefDe ag ≠ "")
    (ht : numeroEhTeste (obter_numero_paciente ag) = true) :
    (processRecord env L ag e).envio = some ⟨TemplateKind.cancelamento, false⟩ ∧
    (processRecord env L ag true).ledger = mark_processed L i "cancelamento" none none none ∧
    (processRecord env L ag true).desfecho = Desfecho.cancelNotificado := by
  have hsk : ¬(obter_numero_paciente ag = "" ∨ dataRefDe ag = "" ∨ horaRefDe ag = "") := by
    rintro (h | h | h)
    · exact hnum h
    · exact hdR h
    · exact hhR h
  refine ⟨?_, ?_, ?_⟩ <;>
  · rw [processRecord, decidirRecord, hid]
    simp only [hcan, if_true, hpc, Bool.false_eq_true, if_false]
    rw [if_neg hsk]
    simp only [ht, Bool.not_true, Bool.false_eq_true, if_false]
    rcases e with _ | _ <;> simp [executar, aplicarGravar]

theorem conf_reativa_fwd (env : Env) (L : Ledger) (ag : Agendamento) (i : Nat)
    (hid : ag.id = some i)
    (hcan : pyIn CANCELAMENTO_KEYWORD (pyUpper (obter_status_agendamento ag)) = false)
    (hconf : pyIn CONFIRMADO_KEYWORD (pyUpper (obter_status_agendamento ag)) = true)
    (hwfd : ∀ s, dataAgendaDe ag = some s → pyStrip s = s ∧ s ≠ "N/A")
    (hwfh : ∀ s, horaAgendaDe ag = some s → pyStrip s = s ∧ s ≠ "N/A")
    (hag : L i "agendamento" =
      some ⟨some (dataRefDe ag), some (horaRefDe ag), ag.idTipoConsulta⟩)
    (hpc : is_processed L i "cancelamento" = true)
    (hnum : obter_numero_paciente ag ≠ "")
    (ht : numeroEhTeste (obter_numero_paciente ag) = true) :
    (processRecord env L ag true).desfecho = Desfecho.envioOk false false true ∧
    (processRecord env L ag true).ledger =
      aplicarGravar L (Gravar.conf i (dataRefDe ag) (horaRefDe ag) ag.idTipoConsulta true) := by
  have hja : is_processed L i "agendamento" = true := by
    rw [is_processed, hag]
    rfl
  have hget : get_processed_data L i "agendamento" =
      (some (dataRefDe ag), some (horaRefDe ag), ag.idTipoConsulta) := by
    rw [get_processed_data, hag]
  have hr : ehReagendamentoDe (some (dataRefDe ag)) (some (horaRefDe ag))
      (dataAtualDe ag) (horaAtualDe ag) = false := by
    rw [dataAtual_eq_ref ag hwfd, horaAtual_eq_ref ag hwfh]
    exact ehReag_mesmos _ _
  have hm : mudouTipoDe ag.idTipoConsulta ag.idTipoConsulta = false := mudou_mesmo _
  constructor <;>
  · rw [processRecord, decidirRecord, hid]
    simp only [hcan, hconf, hja, hget, hr, hm, hpc, Bool.false_eq_true, if_false,
      Bool.not_false, Bool.not_true, if_true, Bool.and_true, Bool.true_and,
      Bool.and_false, Bool.and_self]
    rw [if_neg hnum]
    simp only [ht, Bool.not_true, Bool.false_eq_true, if_false]
    simp [executar]

/-- C3: through the sequence confirmation dispatched, cancellation
dispatched (ledger cancellation entry created), same-date/time
confirmation redispatched as a reactivation (which removes the
cancellation entry), a subsequent cancellation candidate for the same id
is treated as new — it is dispatched again — not as duplicate. -/
theorem C3_cancelar_reativar_cancelar (env : Env) (L0 L1 L2 L3 : Ledger)
    (agConf agCancel : Agendamento) (i : Nat) (e : Bool)
    (hidC : agConf.id = some i) (hidX : agCancel.id = some i)
    (hcanC : pyIn CANCELAMENTO_KEYWORD (pyUpper (obter_status_agendamento agConf)) = false)
    (hcanX : pyIn CANCELAMENTO_KEYWORD (pyUpper (obter_status_agendamento agCancel)) = true)
    (hwfd : ∀ s, dataAgendaDe agConf = some s → pyStrip s = s ∧ s ≠ "N/A")
    (hwfh : ∀ s, horaAgendaDe agConf = some s → pyStrip s = s ∧ s ≠ "N/A")
    (hdisp1 : ((processRecord env L0 agConf true).envio).isSome = true)
    (hL1 : (processRecord env L0 agConf true).ledger = L1)
    (hnumX : obter_numero_paciente agCancel ≠ "")
    (hdX : dataRefDe agCancel ≠ "") (hhX : horaRefDe agCancel ≠ "")
    (htX : numeroEhTeste (obter_numero_paciente agCancel) = true)
    (hL2 : (processRecord env L1 agCancel true).ledger = L2)
    (hL3 : (processRecord env L2 agConf true).ledger = L3) :
    (processRecord env L1 agCancel true).desfecho = Desfecho.cancelNotificado ∧
    (processRecord env L2 agConf true).desfecho = Desfecho.envioOk false false true ∧
    is_processed L3 i "cancelamento" = false ∧
    (processRecord env L3 agCancel e).envio = some ⟨TemplateKind.cancelamento, false⟩ ∧
    (processRecord env L3 agCancel true).desfecho = Desfecho.cancelNotificado := by
  obtain ⟨hconf, hinv1, hnumC, htC⟩ := conf_inv env L0 agConf i hidC hcanC hdisp1
  have hL1eq : L1 = aplicarGravar L0 (Gravar.conf i (dataRefDe agConf) (horaRefDe agConf)
      agConf.idTipoConsulta (is_processed L0 i "cancelamento")) := by
    rw [← hL1, hinv1]
  have hagL1 : L1 i "agendamento" =
      some ⟨some (dataRefDe agConf), some (horaRefDe agConf), agConf.idTipoConsulta⟩ := by
    rw [hL1eq]
    exact aplicar_conf_ag L0 i _ _ _ _
  have hncL1 : L1 i "cancelamento" = none := by
    rw [hL1eq]
    exact aplicar_conf_cancel L0 i _ _ _
  have hpcL1 : is_processed L1 i "cancelamento" = false := by
    rw [is_processed, hncL1]
    rfl
  obtain ⟨henv2, hled2, hdes2⟩ :=
    cancel_fwd env L1 agCancel i true hidX hcanX hpcL1 hnumX hdX hhX htX
  have hL2eq : L2 = mark_processed L1 i "cancelamento" none none none := by
    rw [← hL2, hled2]
  have hpcL2 : is_processed L2 i "cancelamento" = true := by
    rw [hL2eq]
    exact is_processed_mark_same L1 i "cancelamento" none none none
  have hne : ¬(i = i ∧ ("agendamento" : String) = "cancelamento") := by
    rintro ⟨_, hq⟩
    exact absurd hq (by decide)
  have hagL2 : L2 i "agendamento" =
      some ⟨some (dataRefDe agConf), some (horaRefDe agConf), agConf.idTipoConsulta⟩ := by
    rw [hL2eq, lookup_mark_other _ _ _ _ _ _ _ _ hne, hagL1]
  obtain ⟨hdes3, hled3⟩ := conf_reativa_fwd env L2 agConf i hidC hcanC hconf hwfd hwfh
    hagL2 hpcL2 hnumC htC
  have hL3eq : L3 = aplicarGravar L2 (Gravar.conf i (dataRefDe agConf) (horaRefDe agConf)
      agConf.idTipoConsulta true) := by
    rw [← hL3, hled3]
  have hncL3 : L3 i "cancelamento" = none := by
    rw [hL3eq, ← hpcL2]
    exact aplicar_conf_cancel L2 i _ _ _
  have hpcL3 : is_processed L3 i "cancelamento" = false := by
    rw [is_processed, hncL3]
    rfl
  obtain ⟨henv4, _, _⟩ :=
    cancel_fwd env L3 agCancel i e hidX hcanX hpcL3 hnumX hdX hhX htX
  obtain ⟨_, _, hdes4t⟩ :=
    cancel_fwd env L3 agCancel i true hidX hcanX hpcL3 hnumX hdX hhX htX
  exact ⟨hdes2, hdes3, hpcL3, henv4, hdes4t⟩

/-- Concrete confirmation snapshot for the cancel-reactivate-cancel
sequence. -/
def agConfSeq : Agendamento :=
  ⟨some 13, some "CONFIRMADO", some "2025-02-03", none, some "09:15", none, none,
    some "92984532273", none, none, none, some 113784, []⟩

/-- Concrete cancellation snapshot for the same appointment id. -/
def agCancelSeq : Agendamento :=
  ⟨some 13, some "CANCELADO", some "2025-02-03", none, some "09:15", none, none,
    some "92984532273", none, none, none, some 113784, []⟩

/-- Witness for C3 at the concrete sequence: the second cancellation is
notified (new), not reported duplicate. -/
theorem C3_cancelar_reativar_cancelar_witness :
    (processRecord envPadrao
      ((processRecord envPadrao
        ((processRecord envPadrao
          ((processRecord envPadrao ledgerVazio agConfSeq true).ledger)
          agCancelSeq true).ledger)
        agConfSeq true).ledger)
      agCancelSeq true).desfecho = Desfecho.cancelNotificado := by
  have hwfd : ∀ s, dataAgendaDe agConfSeq = some s → pyStrip s = s ∧ s ≠ "N/A" := by
    intro s hs
    have hd : dataAgendaDe agConfSeq = some "2025-02-03" := by decide
    rw [hd, Option.some.injEq] at hs
    subst hs
    exact ⟨by decide, by decide⟩
  have hwfh : ∀ s, horaAgendaDe agConfSeq = some s → pyStrip s = s ∧ s ≠ "N/A" := by
    intro s hs
    have hd : horaAgendaDe agConfSeq = some "09:15" := by decide
    rw [hd, Option.some.injEq] at hs
    subst hs
    exact ⟨by decide, by decide⟩
  exact (C3_cancelar_reativar_cancelar envPadrao ledgerVazio
    ((processRecord envPadrao ledgerVazio agConfSeq true).ledger)
    ((processRecord envPadrao
      ((processRecord envPadrao ledgerVazio agConfSeq true).ledger)
      agCancelSeq true).ledger)
    ((processRecord envPadrao
      ((processRecord envPadrao
        ((processRecord envPadrao ledgerVazio agConfSeq true).ledger)
        agCancelSeq true).ledger)
      agConfSeq true).ledger)
    agConfSeq agCancelSeq 13 true rfl rfl (by decide) (by decide) hwfd hwfh
    (by decide) rfl (by decide) (by decide) (by decide) (by decide) rfl rfl).2.2.2.2

theorem selecionar_eq_find (dh : ℚ) (ag2 : Agendamento) (cfgs2 : List LembreteConfig) :
    selecionarConfig dh ag2 cfgs2 = List.find? (configElegivel dh ag2) cfgs2 := by
  induction cfgs2 with
  | nil => rfl
  | cons c rest ih =>
    rw [selecionarConfig, List.find?]
    by_cases h1 : c.temTemplate
    · by_cases h2 : c.predicate ag2
      · rcases halvo : c.delta_target with _ | alvo
        · simp [h1, h2, halvo, configElegivel]
        · by_cases h3 : |dh - alvo| > c.tolerancia
          · simp [h1, h2, halvo, h3, configElegivel, ih]
          · simp [h1, h2, halvo, h3, configElegivel]
      · simp [h1, h2, configElegivel, ih]
    · simp [h1, configElegivel, ih]

/-- C7: the reminder matcher skips every snapshot whose lead time is
non-positive without touching the ledger; the configuration-selection
loop picks exactly the first eligible configuration in priority order
(it equals `List.find?` of the eligibility predicate, so later
configurations are never considered once one matches); with target 24h
and tolerance 2h an appointment at now+23h selects the default variant
while now+21h59m and now+26h01m select nothing; and each matched variant
fires at most once per appointment id: after a successful dispatch the
(id, variant) ledger entry makes every replay skip as already
processed. -/
theorem C7_lembrete_matcher (L : Ledger) (ag : Agendamento) (agora : ℚ)
    (pt : String → Option ℚ) (cfgs : List LembreteConfig) (i : Nat) (dtMin : ℚ) (e : Bool)
    (hid : ag.id = some i)
    (hconf : pyIn "CONFIRMADO" (pyUpper (obter_status_agendamento ag)) = true)
    (hdt : (montarDtStr ag).bind pt = some dtMin) :
    ((dtMin - agora) / 60 ≤ 0 →
      (processLembrete L ag agora pt cfgs e).ledger = L ∧
      (processLembrete L ag agora pt cfgs e).envio = none ∧
      (processLembrete L ag agora pt cfgs e).leituras = [] ∧
      (processLembrete L ag agora pt cfgs e).desfecho = DesfechoLembrete.naoFuturo) ∧
    (∀ dh ag2 cfgs2, selecionarConfig dh ag2 cfgs2 = List.find? (configElegivel dh ag2) cfgs2) ∧
    (eh_duoglide ag = false → eh_usg_abdomen ag = false → eh_depilacao_laser ag = false →
      Option.map LembreteConfig.nome
        (selecionarConfig 23 ag (lembrete_configs true true true true)) =
          some "lembrete_padrao" ∧
      selecionarConfig (21 + 59/60) ag (lembrete_configs true true true true) = none ∧
      selecionarConfig (26 + 1/60) ag (lembrete_configs true true true true) = none) ∧
    (∀ cfg, 0 < (dtMin - agora) / 60 →
      selecionarConfig ((dtMin - agora) / 60) ag cfgs = some cfg →
      is_processed L i cfg.nome = false →
      obter_numero_paciente ag ≠ "" →
      numeroEhTeste (obter_numero_paciente ag) = true →
      (processLembrete L ag agora pt cfgs true).envio = some cfg.nome ∧
      (processLembrete ((processLembrete L ag agora pt cfgs true).ledger)
        ag agora pt cfgs e).envio = none ∧
      (processLembrete ((processLembrete L ag agora pt cfgs true).ledger)
        ag agora pt cfgs e).desfecho = DesfechoLembrete.jaProcessado ∧
      (processLembrete ((processLembrete L ag agora pt cfgs true).ledger)
        ag agora pt cfgs e).ledger = (processLembrete L ag agora pt cfgs true).ledger) := by
  refine ⟨?_, selecionar_eq_find, ?_, ?_⟩
  · intro hneg
    rw [processLembrete, decidirLembrete, hid]
    simp only [hconf, Bool.not_true, Bool.false_eq_true, if_false, hdt]
    rw [if_pos hneg]
    simp [executarLembrete]
  · intro hduo husg hdep
    refine ⟨?_, ?_, ?_⟩ <;>
      norm_num [selecionarConfig, lembrete_configs, hduo, husg, hdep, abs_sub_le_iff, abs_le]
  · intro cfg hpos hsel hnp hnum ht
    have hstep : processLembrete L ag agora pt cfgs true =
        ⟨mark_processed L i cfg.nome (some ((dataAgendaDe ag).getD ""))
          (some ((horaAgendaDe ag).getD "")) ag.idTipoConsulta,
          [(i, cfg.nome)], some cfg.nome, DesfechoLembrete.enviado⟩ := by
      rw [processLembrete, decidirLembrete, hid]
      simp only [hconf, Bool.not_true, Bool.false_eq_true, if_false, hdt]
      rw [if_neg (not_le.mpr hpos), hsel]
      simp only [hnp, Bool.false_eq_true, if_false]
      rw [if_neg hnum]
      simp only [ht, Bool.not_true, Bool.false_eq_true, if_false]
      simp [executarLembrete]
    have hproc2 : is_processed (processLembrete L ag agora pt cfgs true).ledger i cfg.nome =
        true := by
      rw [hstep]
      exact is_processed_mark_same _ _ _ _ _ _
    have hreplay : ∀ M : Ledger, is_processed M i cfg.nome = true →
        processLembrete M ag agora pt cfgs e = ⟨M, [(i, cfg.nome)], none,
          DesfechoLembrete.jaProcessado⟩ := by
      intro M hM
      rw [processLembrete, decidirLembrete, hid]
      simp only [hconf, Bool.not_true, Bool.false_eq_true, if_false, hdt]
      rw [if_neg (not_le.mpr hpos), hsel]
      simp only [hM, if_true]
      simp [executarLembrete]
    rw [hreplay _ hproc2]
    rw [hstep]
    exact ⟨rfl, rfl, rfl, rfl⟩

/-- Concrete confirmed snapshot with no special procedures, 23 hours
ahead under the concrete parse oracle. -/
def agLembrete : Agendamento :=
  ⟨some 14, some "CONFIRMADO", some "2025-02-03", none, some "09:15", none, none,
    some "92984532273", none, none, none, none, []⟩

/-- Parse oracle mapping the snapshot's datetime string to minute 1380
(23 hours after the clock value 0). -/
def ptLembrete : String → Option ℚ :=
  fun s => if s = "2025-02-03 09:15" then some 1380 else none

/-- Witness for C7: the default 24h variant fires for the snapshot 23
hours ahead, and the replay right after the successful dispatch is
skipped as already processed. -/
theorem C7_lembrete_matcher_witness :
    (processLembrete ledgerVazio agLembrete 0 ptLembrete
      (lembrete_configs true true true true) true).envio = some "lembrete_padrao" ∧
    (processLembrete ((processLembrete ledgerVazio agLembrete 0 ptLembrete
        (lembrete_configs true true true true) true).ledger)
      agLembrete 0 ptLembrete (lembrete_configs true true true true) true).desfecho =
      DesfechoLembrete.jaProcessado := by
  have hsel : selecionarConfig ((1380 - 0) / 60) agLembrete
      (lembrete_configs true true true true) =
      some ⟨"lembrete_padrao", true, fun _ => true, some 24, 2⟩ := by
    norm_num [selecionarConfig, lembrete_configs, eh_duoglide, eh_usg_abdomen,
      eh_depilacao_laser, agLembrete]
  have hd := (C7_lembrete_matcher ledgerVazio agLembrete 0 ptLembrete
    (lembrete_configs true true true true) 14 1380 true rfl (by decide) (by decide)).2.2.2
    ⟨"lembrete_padrao", true, fun _ => true, some 24, 2⟩
    (by norm_num) hsel (by decide) (by decide) (by decide)
  exact ⟨hd.1, hd.2.2.1⟩
